import Mathlib

/-!
# Safevoice: the auth-state broadcaster of `src/js/supabase-client.js`

A shallow embedding of the module-level state (`currentUser`, `authStateListeners`), of the
callback registered with the provider (lines 19-29), of `onAuthStateChange`, `getCurrentUser`,
`updateAuthUI`, `updateUserProfileDisplay` and of the `signUp` / `signIn` / `signOut` wrappers.

* JavaScript values are the type `JsVal`; truthiness, property reads, `?.` and `||` follow the
  language.
* A registered callback is a `Listener`: an identity (`id`, the identity of the function object,
  which is what `!==` compares) and a body.  A body is a straight-line `Script` over the public
  surface of the module: it may read `getCurrentUser()`, show a notification, call an unsubscribe
  handle, subscribe a further callback, return, or throw.
* Everything observable is appended to `State.log`.
-/

namespace Safevoice

/-! ## JavaScript values -/

mutual
/-- JavaScript values. Numbers are the integers plus `NaN`; an object is its list of own
properties. A string is `str` of its text; `surrogate code` is the string of length one whose
only UTF-16 code unit is the surrogate half `code`, as found at an index of a string that has
a character outside the Basic Multilingual Plane. -/
inductive JsVal where
  | undefined
  | null
  | bool (b : Bool)
  | num (n : Int)
  | nan
  | str (s : String)
  | obj (fields : Fields)
  | surrogate (code : Nat)
  deriving DecidableEq
/-- Own properties of an object, in order. -/
inductive Fields where
  | nil
  | cons (key : String) (value : JsVal) (rest : Fields)
  deriving DecidableEq
end

/-- Value of the property `key` in a property list; `undefined` when there is none. -/
def Fields.lookup (key : String) : Fields → JsVal
  | .nil => .undefined
  | .cons k v rest => if k = key then v else Fields.lookup key rest

/-- Truthiness (`ToBoolean`): `undefined`, `null`, `false`, `0`, `NaN` and `""` are falsy. -/
def JsVal.truthy : JsVal → Bool
  | .undefined => false
  | .null => false
  | .bool b => b
  | .num n => n != 0
  | .nan => false
  | .str s => s != ""
  | .obj _ => true
  | .surrogate _ => true

/-- Whether a value is `null` or `undefined`. -/
def JsVal.nullish : JsVal → Bool
  | .undefined => true
  | .null => true
  | _ => false

/-- Property read `v.key` on a value that is not nullish: the own property of an object,
`undefined` on a primitive. -/
def JsVal.prop (v : JsVal) (key : String) : JsVal :=
  match v with
  | .obj fields => fields.lookup key
  | _ => .undefined

/-- Optional chaining `v?.key`. -/
def JsVal.optProp (v : JsVal) (key : String) : JsVal :=
  if v.nullish then .undefined else v.prop key

/-- The operator `a || b`. -/
def JsVal.or (a b : JsVal) : JsVal :=
  if a.truthy then a else b

/-! ## Listeners -/

mutual
/-- Registered callback: the identity of the function object and what it does when called. -/
inductive Listener where
  | mk (id : Nat) (body : Script)
  deriving DecidableEq
/-- Body of a callback, as a straight-line program over the module's public surface. -/
inductive Script where
  /-- Return normally. -/
  | done
  /-- Throw. -/
  | raise
  /-- Call `getCurrentUser()` (the value read is logged), then continue. -/
  | read (rest : Script)
  /-- Call `showNotification(message, type)`, then continue. -/
  | notify (message type : String) (rest : Script)
  /-- Call the unsubscribe handle that `onAuthStateChange` returned for the callback `h`. -/
  | unsubscribe (h : Nat) (rest : Script)
  /-- Call `onAuthStateChange(l)`; an error thrown by it is not caught. -/
  | subscribe (l : Listener) (rest : Script)
  deriving DecidableEq
end

/-- Identity of the function object. -/
def Listener.id : Listener → Nat
  | .mk id _ => id

/-- Body of the callback. -/
def Listener.body : Listener → Script
  | .mk _ body => body

/-- The closure returned by `onAuthStateChange(callback)`; it captures `callback`. -/
structure Handle where
  callback : Nat
  deriving DecidableEq

/-- How a call ends: it returns a value or an error propagates out of it. -/
inductive Completion (α : Type) where
  | returned (value : α)
  | threw
  deriving DecidableEq

/-! ## State -/

/-- A request built on the `supabase` client for the backend's tables. -/
structure Request where
  table : String
  verb : String
  payload : JsVal
  eqColumn : String
  eqValue : JsVal
  deriving DecidableEq

/-- Observable events. `depth` is the height of the call stack of the code making the call:
`0` for the provider and for page code, `d + 1` inside a callback called from depth `d`. -/
inductive Ev where
  /-- The call `listener(user, event)`. -/
  | invoke (depth : Nat) (listener : Nat) (user : JsVal) (event : String)
  /-- A callback called `getCurrentUser()` and got `value`. -/
  | sawUser (depth : Nat) (listener : Nat) (value : JsVal)
  /-- The call `showNotification(message, type)`. -/
  | notification (message type : String)
  /-- A request to the backend's tables. -/
  | request (r : Request)
  /-- A call of `supabase.auth.<op>(args)`. -/
  | providerCall (op : String) (args : JsVal)
  /-- The call `console.error(label, error)`. -/
  | consoleError (label : String) (error : JsVal)
  /-- Another effect of page code on the browser: `action` names the call or assignment
  (`appendChild`, `focus`, `setTimeout`, ...), `detail` says to what. -/
  | ui (action : String) (detail : JsVal)
  deriving DecidableEq

/-- A DOM element, as far as the module touches it. -/
structure Element where
  classList : List String
  textContent : String
  deriving DecidableEq

/-- Module state of `supabase-client.js` together with the page and the log of events. -/
structure State where
  currentUser : JsVal
  authStateListeners : List Listener
  document : List (String × Element)
  log : List Ev
  deriving DecidableEq

/-- State right after the module is loaded (lines 15-16), on a given page. -/
def State.init (document : List (String × Element)) : State :=
  { currentUser := .null, authStateListeners := [], document := document, log := [] }

/-- Append an event to the log. -/
def State.emit (s : State) (e : Ev) : State :=
  { s with log := s.log ++ [e] }

/-- The function `getCurrentUser` (lines 45-47). -/
def getCurrentUser (s : State) : JsVal :=
  s.currentUser

/-- Calling an unsubscribe handle (lines 39-41): keep the listeners that are not the captured
callback. A handle call never throws. -/
def Handle.call (h : Handle) (s : State) : State :=
  { s with authStateListeners := s.authStateListeners.filter (fun l => l.id != h.callback) }

/-! ## Subscription and callback bodies -/

mutual
/-- The function `onAuthStateChange` (lines 32-42), called by code at stack depth `d`: push the
callback, call it with `(currentUser, 'INITIAL_SESSION')`, return the unsubscribe closure. An
error thrown by the callback propagates. -/
def onAuthStateChange (d : Nat) : Listener → State → State × Completion Handle
  | .mk id body, s =>
    let s1 := { s with authStateListeners := s.authStateListeners ++ [Listener.mk id body] }
    match runBody (d + 1) id body (s1.emit (.invoke d id s1.currentUser "INITIAL_SESSION")) with
    | (s2, .returned _) => (s2, .returned ⟨id⟩)
    | (s2, .threw) => (s2, .threw)
/-- Run the body of callback `me` at stack depth `d`. -/
def runBody (d : Nat) (me : Nat) : Script → State → State × Completion Unit
  | .done, s => (s, .returned ())
  | .raise, s => (s, .threw)
  | .read rest, s => runBody d me rest (s.emit (.sawUser d me (getCurrentUser s)))
  | .notify message type rest, s => runBody d me rest (s.emit (.notification message type))
  | .unsubscribe h rest, s => runBody d me rest (Handle.call ⟨h⟩ s)
  | .subscribe l rest, s =>
    match onAuthStateChange d l s with
    | (s1, .returned _) => runBody d me rest s1
    | (s1, .threw) => (s1, .threw)
end

/-- The call `listener(user, event)` made by code at stack depth `d`. -/
def callListener (d : Nat) (l : Listener) (user : JsVal) (event : String) (s : State) :
    State × Completion Unit :=
  runBody (d + 1) l.id l.body (s.emit (.invoke d l.id user event))

/-! ## The page -/

/-- Look up `document.getElementById(id)`: the first element with that id. -/
def getElementById (id : String) : List (String × Element) → Option Element
  | [] => none
  | (k, e) :: rest => if k = id then some e else getElementById id rest

/-- Apply `f` to the element that `getElementById(id)` returns, if there is one. -/
def modifyElement (id : String) (f : Element → Element) :
    List (String × Element) → List (String × Element)
  | [] => []
  | (k, e) :: rest => if k = id then (k, f e) :: rest else (k, e) :: modifyElement id f rest

/-- The call `el.classList.add(token)`. -/
def Element.addClass (token : String) (e : Element) : Element :=
  { e with classList := if token ∈ e.classList then e.classList else e.classList ++ [token] }

/-- The call `el.classList.remove(token)`. -/
def Element.removeClass (token : String) (e : Element) : Element :=
  { e with classList := e.classList.filter (fun c => c != token) }

/-- Ids of the array `authButtons` (line 58). -/
def authButtons : List String :=
  ["loginBtn", "signupBtn", "mobileLoginBtn", "mobileSignupBtn"]

/-- Ids of the array `loggedInElements` (line 59). -/
def loggedInElements : List String :=
  ["logoutBtn", "userProfile"]

/-- The loop `ids.forEach(el => el && f(el))` over the elements with the given ids. -/
def forEachPresent (f : Element → Element) (ids : List String)
    (document : List (String × Element)) : List (String × Element) :=
  ids.foldl (fun doc id => modifyElement id f doc) document

/-- The function `updateUserProfileDisplay` (lines 78-96) up to its `await`: the request for the
profile row is issued; the reply is handled in a later task. -/
def updateUserProfileDisplay (s : State) : State :=
  if s.currentUser.truthy then
    s.emit (.request
      { table := "profiles", verb := "select", payload := .str "first_name, last_name",
        eqColumn := "id", eqValue := s.currentUser.prop "id" })
  else s

/-- The function `updateAuthUI` (lines 50-75). -/
def updateAuthUI (s : State) : State :=
  if s.currentUser.truthy then
    let doc1 := forEachPresent (Element.addClass "hidden") authButtons s.document
    let doc2 := forEachPresent (Element.removeClass "hidden") loggedInElements doc1
    let s1 := { s with document := doc2 }
    match getElementById "userProfile" s.document with
    | some _ => updateUserProfileDisplay s1
    | none => s1
  else
    let doc1 := forEachPresent (Element.removeClass "hidden") authButtons s.document
    let doc2 := forEachPresent (Element.addClass "hidden") loggedInElements doc1
    { s with document := doc2 }

/-! ## The provider's callback -/

/-- The loop `authStateListeners.forEach(listener => listener(currentUser, event))` (lines
23-25) over the array as it was when the loop started; an error thrown by a listener ends it. -/
def forEachListener (event : String) : List Listener → State → State × Completion Unit
  | [], s => (s, .returned ())
  | l :: rest, s =>
    match callListener 0 l s.currentUser event s with
    | (s1, .returned _) => forEachListener event rest s1
    | (s1, .threw) => (s1, .threw)

/-- The expression `session?.user || null` (line 20). -/
def sessionUser (session : JsVal) : JsVal :=
  (session.optProp "user").or .null

/-- The callback registered with `supabase.auth.onAuthStateChange` (lines 19-29). -/
def onProviderEvent (event : String) (session : JsVal) (s : State) : State × Completion Unit :=
  let s1 := { s with currentUser := sessionUser session }
  match forEachListener event s1.authStateListeners s1 with
  | (s2, .returned _) => (updateAuthUI s2, .returned ())
  | (s2, .threw) => (s2, .threw)

/-! ## Auth wrappers -/

/-- What awaiting a call on the provider gives: the value it resolves to, or a rejection. -/
inductive ProviderReply where
  | resolved (value : JsVal)
  | rejected (error : JsVal)
  deriving DecidableEq

/-- The `TypeError` thrown when `property` is destructured from the awaited value `value`,
which is `null` or `undefined`. The message is the engine's; it is worded as V8 words it. -/
def destructureError (property : String) (value : JsVal) : JsVal :=
  .obj (.cons "name" (.str "TypeError")
    (.cons "message" (.str ("Cannot destructure property '" ++ property ++
      "' of '(intermediate value)' as it is " ++
      (if value = .null then "null" else "undefined") ++ ".")) .nil))

/-- An object literal with the properties `data` and `error`. -/
def dataError (data error : JsVal) : JsVal :=
  .obj (.cons "data" data (.cons "error" error .nil))

/-- Shared shape of `signUp` and `signIn`: call the provider once, destructure `data` and
`error`, throw a truthy `error`, and turn whatever was thrown into a result. -/
def authCall (op label : String) (args : JsVal) (reply : ProviderReply) (s : State) :
    State × JsVal :=
  let s1 := s.emit (.providerCall op args)
  match reply with
  | .resolved value =>
    if value.nullish then
      ((s1.emit (.consoleError label (destructureError "data" value))),
        dataError .null (destructureError "data" value))
    else if (value.prop "error").truthy then
      ((s1.emit (.consoleError label (value.prop "error"))), dataError .null (value.prop "error"))
    else (s1, dataError (value.prop "data") .null)
  | .rejected error => ((s1.emit (.consoleError label error)), dataError .null error)

/-- The function `signUp` (lines 99-115); the parameter `userData` defaults to an empty object
when the argument is `undefined`. -/
def signUp (email password userData : JsVal) (reply : ProviderReply) (s : State) :
    State × JsVal :=
  authCall "signUp" "Sign up error:"
    (.obj (.cons "email" email (.cons "password" password
      (.cons "options"
        (.obj (.cons "data" (if userData = .undefined then .obj .nil else userData) .nil))
        .nil)))) reply s

/-- The function `signIn` (lines 117-130). -/
def signIn (email password : JsVal) (reply : ProviderReply) (s : State) : State × JsVal :=
  authCall "signInWithPassword" "Sign in error:"
    (.obj (.cons "email" email (.cons "password" password .nil))) reply s

/-- The function `signOut` (lines 132-141). -/
def signOut (reply : ProviderReply) (s : State) : State × JsVal :=
  let s1 := s.emit (.providerCall "signOut" .undefined)
  match reply with
  | .resolved value =>
    if value.nullish then
      ((s1.emit (.consoleError "Sign out error:" (destructureError "error" value))),
        .obj (.cons "error" (destructureError "error" value) .nil))
    else if (value.prop "error").truthy then
      ((s1.emit (.consoleError "Sign out error:" (value.prop "error"))),
        .obj (.cons "error" (value.prop "error") .nil))
    else (s1, .obj (.cons "error" .null .nil))
  | .rejected error =>
    ((s1.emit (.consoleError "Sign out error:" error)), .obj (.cons "error" error .nil))

/-! ## Sequences of calls -/

/-- One call into the module from outside: by the provider or by page code. -/
inductive Input where
  | providerEvent (event : String) (session : JsVal)
  | subscribe (l : Listener)
  | unsubscribe (h : Handle)
  | getCurrentUser
  | signUp (email password userData : JsVal) (reply : ProviderReply)
  | signIn (email password : JsVal) (reply : ProviderReply)
  | signOut (reply : ProviderReply)
  deriving DecidableEq

/-- State after one call. -/
def step (s : State) : Input → State
  | .providerEvent event session => (onProviderEvent event session s).1
  | .subscribe l => (onAuthStateChange 0 l s).1
  | .unsubscribe h => h.call s
  | .getCurrentUser => s
  | .signUp email password userData reply => (signUp email password userData reply s).1
  | .signIn email password reply => (signIn email password reply s).1
  | .signOut reply => (signOut reply s).1

/-- State after a sequence of calls. -/
def run (inputs : List Input) (s : State) : State :=
  inputs.foldl step s

/-- Whether an input is a provider event. -/
def Input.isProviderEvent : Input → Bool
  | .providerEvent _ _ => true
  | _ => false

/-! ## Reading the log -/

/-- Stack depth of the caller, for a callback call. -/
def Ev.callDepth : Ev → Option Nat
  | .invoke d _ _ _ => some d
  | _ => none

/-- The callback calls in a log that were made by code at stack depth `d`. -/
def directCalls (d : Nat) (log : List Ev) : List Ev :=
  log.filter (fun e => e.callDepth = some d)

/-- Events that the body of a callback running at depth `d` or deeper can produce while the
current user is `u`: initial-session calls of newly subscribed callbacks, reads of the current
user, notifications. -/
def BodyOnly (d : Nat) (u : JsVal) : Ev → Prop
  | .invoke d1 _ u1 ev => d ≤ d1 ∧ u1 = u ∧ ev = "INITIAL_SESSION"
  | .sawUser d1 _ v => d ≤ d1 ∧ v = u
  | .notification _ _ => True
  | _ => False

/-- Relation between the states before and after code that runs at depth `d` or deeper and
writes neither the current user nor the page. -/
def Frame (d : Nat) (s t : State) : Prop :=
  t.currentUser = s.currentUser ∧ t.document = s.document ∧
    ∃ ext, t.log = s.log ++ ext ∧ ∀ e ∈ ext, BodyOnly d s.currentUser e

/-- The events logged between the state `s` and a later state `t`. -/
def newEvents (s t : State) : List Ev :=
  t.log.drop s.log.length

/-- The value of the current user that an event shows: the `user` argument of a callback
call, or the value a callback read with `getCurrentUser()`. -/
def Ev.userSeen : Ev → Option JsVal
  | .invoke _ _ u _ => some u
  | .sawUser _ _ v => some v
  | _ => none

mutual
/-- Whether calling the listener ends with an error (see `callListener_threw_iff`). -/
def Listener.throws : Listener → Bool
  | .mk _ body => body.throws
/-- Whether running the body ends with an error (see `runBody_threw_iff`). -/
def Script.throws : Script → Bool
  | .done => false
  | .raise => true
  | .read rest => rest.throws
  | .notify _ _ rest => rest.throws
  | .unsubscribe _ rest => rest.throws
  | .subscribe l rest => l.throws || rest.throws
end

/-- The listeners of a list up to and including the first one that throws. -/
def reached : List Listener → List Listener
  | [] => []
  | l :: rest => if l.throws then [l] else l :: reached rest

/-- The call `listener(user, event)` made by the provider's callback. -/
def fanOutCall (user : JsVal) (event : String) (l : Listener) : Ev :=
  .invoke 0 l.id user event

/-- Events of one fan-out for `event` while the current user is `u`. -/
def FanEv (event : String) (u : JsVal) (e : Ev) : Prop :=
  (∃ id, e = .invoke 0 id u event) ∨ BodyOnly 1 u e

/-- Relation between the states before and after the fan-out over the listeners `ls`. -/
def FanOut (event : String) (ls : List Listener) (s t : State) : Prop :=
  t.currentUser = s.currentUser ∧ t.document = s.document ∧
    ∃ ext, t.log = s.log ++ ext ∧ (∀ e ∈ ext, FanEv event s.currentUser e) ∧
      directCalls 0 ext = (reached ls).map (fanOutCall s.currentUser event)

/-- The state in which the fan-out of the provider's callback starts. -/
def afterWrite (session : JsVal) (s : State) : State :=
  { s with currentUser := sessionUser session }

/-- Relation between the states before and after code that leaves the current user, the
listeners and the page alone and calls no callback. -/
def Quiet (s t : State) : Prop :=
  t.currentUser = s.currentUser ∧ t.authStateListeners = s.authStateListeners ∧
    t.document = s.document ∧ ∃ ext, t.log = s.log ++ ext ∧ ∀ e ∈ ext, e.callDepth = none

/-- What one subscription does to the state, apart from the list of listeners. -/
def SubscribeFrame (d : Nat) (l : Listener) (s t : State) : Prop :=
  t.currentUser = s.currentUser ∧ t.document = s.document ∧
    ∃ inner, t.log = s.log ++ Ev.invoke d l.id s.currentUser "INITIAL_SESSION" :: inner ∧
      ∀ e ∈ inner, BodyOnly (d + 1) s.currentUser e

/-- The callback that an event calls, for a callback call. -/
def Ev.invoked : Ev → Option Nat
  | .invoke _ id _ _ => some id
  | _ => none

mutual
/-- Whether subscribing the listener registers the callback `n`: the listener is `n`, or its
body subscribes `n` somewhere. -/
def Listener.subscribesId (n : Nat) : Listener → Bool
  | .mk id body => id == n || body.subscribesId n
/-- Whether the body subscribes the callback `n` somewhere. -/
def Script.subscribesId (n : Nat) : Script → Bool
  | .done => false
  | .raise => false
  | .read rest => rest.subscribesId n
  | .notify _ _ rest => rest.subscribesId n
  | .unsubscribe _ rest => rest.subscribesId n
  | .subscribe l rest => l.subscribesId n || rest.subscribesId n
end

/-- Whether a call from outside subscribes the callback `n`. -/
def Input.subscribesId (n : Nat) : Input → Bool
  | .subscribe l => l.subscribesId n
  | _ => false

/-- The callback `n` is not registered and no registered callback subscribes it. -/
def Clean (n : Nat) (s : State) : Prop :=
  ∀ x ∈ s.authStateListeners, x.subscribesId n = false

/-- Relation between the states before and after code that neither registers nor calls the
callback `n`. -/
def NoCall (n : Nat) (s t : State) : Prop :=
  Clean n t ∧ ∃ ext, t.log = s.log ++ ext ∧ ∀ e ∈ ext, e.invoked ≠ some n

/-! ## Data layer (`supabase-client.js`, lines 162-354) -/

/-- The value of `new Error(message)`. The `name`, which JavaScript reads from the prototype, is
recorded to tell the kinds of error apart. -/
def newError (message : String) : JsVal :=
  .obj (.cons "name" (.str "Error") (.cons "message" (.str message) .nil))

/-- The empty array `[]`, as the object whose only own property is `length`. -/
def emptyArray : JsVal :=
  .obj (.cons "length" (.num 0) .nil)

/-- Assignment of the property `key`: an existing property keeps its place. -/
def Fields.set (key : String) (v : JsVal) : Fields → Fields
  | .nil => .cons key v .nil
  | .cons k x rest => if k = key then .cons k v rest else .cons k x (Fields.set key v rest)

/-- The index properties of a string whose characters from index `i` on are `chars`: one
property per UTF-16 code unit, holding the string of that one unit. A character outside the
Basic Multilingual Plane takes two indices, for its high and its low surrogate. -/
def codeUnitFields (i : Nat) : List Char → Fields
  | [] => .nil
  | c :: rest =>
    if c.toNat < 65536 then
      .cons (toString i) (.str (String.singleton c)) (codeUnitFields (i + 1) rest)
    else
      .cons (toString i) (.surrogate (55296 + (c.toNat - 65536) / 1024))
        (.cons (toString (i + 1)) (.surrogate (56320 + (c.toNat - 65536) % 1024))
          (codeUnitFields (i + 2) rest))

/-- The own enumerable properties that `...v` copies into an object literal: those of an
object, the indices of a string, none for `null`, `undefined`, a boolean or a number. -/
def JsVal.ownFields : JsVal → Fields
  | .obj fields => fields
  | .str s => codeUnitFields 0 s.toList
  | .surrogate code => .cons "0" (.surrogate code) .nil
  | _ => .nil

/-- The object literal with `...v` followed by `key: value`. -/
def JsVal.spreadWith (v : JsVal) (key : String) (value : JsVal) : JsVal :=
  .obj (v.ownFields.set key value)

/-- The backend requests in a log. -/
def requestsOf (log : List Ev) : List Request :=
  log.filterMap (fun e => match e with
    | .request r => some r
    | _ => none)

/-- The calls on the auth provider in a log. -/
def providerCallsOf (log : List Ev) : List Ev :=
  log.filter (fun e => match e with
    | .providerCall _ _ => true
    | _ => false)

/-- Shared shape of the data functions once the user is known to be signed in: the query is
sent, `data` and `error` are destructured from what it resolves to and returned (`data` through
`onData`); whatever is thrown is logged and returned with `failData` as data. -/
def awaitQuery (label : String) (r : Request) (onData : JsVal → JsVal) (failData : JsVal)
    (reply : ProviderReply) (s : State) : State × JsVal :=
  let s1 := s.emit (.request r)
  match reply with
  | .resolved value =>
    if value.nullish then
      ((s1.emit (.consoleError label (destructureError "data" value))),
        dataError failData (destructureError "data" value))
    else (s1, dataError (onData (value.prop "data")) (value.prop "error"))
  | .rejected error => ((s1.emit (.consoleError label error)), dataError failData error)

/-- The function `updateProfile` (lines 162-181); `now` is `new Date().toISOString()`. -/
def updateProfile (profileData : JsVal) (now : String) (reply : ProviderReply) (s : State) :
    State × JsVal :=
  if s.currentUser.truthy then
    awaitQuery "Error updating profile:"
      { table := "profiles", verb := "update",
        payload := profileData.spreadWith "updated_at" (.str now),
        eqColumn := "id", eqValue := s.currentUser.prop "id" }
      (fun data => data) .null reply s
  else (s, dataError .null (newError "Not authenticated"))

/-- The function `getEmergencyContacts` (lines 184-200). -/
def getEmergencyContacts (reply : ProviderReply) (s : State) : State × JsVal :=
  if s.currentUser.truthy then
    awaitQuery "Error fetching emergency contacts:"
      { table := "emergency_contacts", verb := "select", payload := .str "*",
        eqColumn := "user_id", eqValue := s.currentUser.prop "id" }
      (fun data => data.or emptyArray) emptyArray reply s
  else (s, dataError emptyArray (newError "Not authenticated"))

/-- The function `addEmergencyContact` (lines 202-220). -/
def addEmergencyContact (contactData : JsVal) (reply : ProviderReply) (s : State) :
    State × JsVal :=
  if s.currentUser.truthy then
    awaitQuery "Error adding emergency contact:"
      { table := "emergency_contacts", verb := "insert",
        payload := contactData.spreadWith "user_id" (s.currentUser.prop "id"),
        eqColumn := "", eqValue := .undefined }
      (fun data => data) .null reply s
  else (s, dataError .null (newError "Not authenticated"))

/-- The function `createEmergencyAlert` (lines 223-241). -/
def createEmergencyAlert (alertData : JsVal) (reply : ProviderReply) (s : State) :
    State × JsVal :=
  if s.currentUser.truthy then
    awaitQuery "Error creating emergency alert:"
      { table := "emergency_alerts", verb := "insert",
        payload := alertData.spreadWith "user_id" (s.currentUser.prop "id"),
        eqColumn := "", eqValue := .undefined }
      (fun data => data) .null reply s
  else (s, dataError .null (newError "Not authenticated"))

/-- The function `createCommunityPost` (lines 303-327). -/
def createCommunityPost (postData : JsVal) (reply : ProviderReply) (s : State) :
    State × JsVal :=
  if s.currentUser.truthy then
    awaitQuery "Error creating community post:"
      { table := "community_posts", verb := "insert",
        payload := postData.spreadWith "user_id" (s.currentUser.prop "id"),
        eqColumn := "", eqValue := .undefined }
      (fun data => data) .null reply s
  else (s, dataError .null (newError "Not authenticated"))

/-- The function `addComment` (lines 329-354). -/
def addComment (postId content : JsVal) (reply : ProviderReply) (s : State) : State × JsVal :=
  if s.currentUser.truthy then
    awaitQuery "Error adding comment:"
      { table := "post_comments", verb := "insert",
        payload := .obj (.cons "post_id" postId
          (.cons "user_id" (s.currentUser.prop "id") (.cons "content" content .nil))),
        eqColumn := "", eqValue := .undefined }
      (fun data => data) .null reply s
  else (s, dataError .null (newError "Not authenticated"))

/-! ## Page code: community and emergency (`community.js`, `emergency.js`) -/

/-- The function `showCreatePostModal` (`community.js`, lines 24-103); `hasLucide` says whether
`window.lucide` is set. -/
def showCreatePostModal (hasLucide : Bool) (s : State) : State :=
  if (getCurrentUser s).truthy then
    let s1 := s.emit (.ui "appendChild" (.str "createPostModal"))
    let s2 := if hasLucide then s1.emit (.ui "createIcons" .undefined) else s1
    (s2.emit (.ui "addEventListener" (.str "submit"))).emit (.ui "addEventListener" (.str "click"))
  else s.emit (.notification "Please log in to create posts" "warning")

/-- The function `window.showCommentForm` (`community.js`, lines 295-310); `postId` is the
argument as the template literals print it. -/
def showCommentForm (postId : String) (s : State) : State :=
  if (getCurrentUser s).truthy then
    match getElementById ("commentForm-" ++ postId) s.document with
    | none => s
    | some _ =>
      let doc := modifyElement ("commentForm-" ++ postId) (Element.removeClass "hidden") s.document
      let s1 := { s with document := doc }
      match getElementById ("commentText-" ++ postId) s.document with
      | none => s1
      | some _ => s1.emit (.ui "focus" (.str ("commentText-" ++ postId)))
  else s.emit (.notification "Please log in to comment" "warning")

/-- The function `handleSOSClick` (`emergency.js`, lines 17-33) up to its return; the timer it
sets shows the emergency modal a second later. Without an element `sosBtn` line 25 throws. -/
def handleSOSClick (s : State) : State × Completion Unit :=
  if (getCurrentUser s).truthy then
    match getElementById "sosBtn" s.document with
    | none => (s, .threw)
    | some _ =>
      let doc := modifyElement "sosBtn" (Element.addClass "animate__headShake") s.document
      let s1 := { s with document := doc }
      let s2 := s1.emit (.ui "style.transform" (.str "scale(0.95)"))
      (s2.emit (.ui "setTimeout" (.obj (.cons "delay" (.num 1000)
        (.cons "task" (.str "showEmergencyModal") .nil)))), .returned ())
  else (s.emit (.notification "Please log in to use emergency services" "warning"), .returned ())

/-- What `getCurrentLocation` (`emergency.js`, lines 146-176) meets: no geolocation support, a
position (with the address that `reverseGeocode` gives, `null` when it throws), or a failure. -/
inductive GeoResult where
  | unsupported
  | position (latitude longitude address : JsVal)
  | failed (error : JsVal)
  deriving DecidableEq

/-- The names that every object literal inherits from `Object.prototype`. -/
def objectPrototypeKeys : List String :=
  ["constructor", "__defineGetter__", "__defineSetter__", "hasOwnProperty",
    "__lookupGetter__", "__lookupSetter__", "isPrototypeOf", "propertyIsEnumerable", "toString",
    "valueOf", "__proto__", "toLocaleString"]

/-- The read `numbers[type]` on the table of `callEmergencyServices` (lines 130-135): the
number for its four own keys; for a name inherited from `Object.prototype` the inherited
function (for `__proto__` the prototype), a truthy value recorded as an object that names it;
`undefined` otherwise. -/
def emergencyNumber (type : String) : JsVal :=
  if type = "medical" ∨ type = "fire" ∨ type = "police" ∨ type = "other" then .str "tel:911"
  else if type ∈ objectPrototypeKeys then .obj (.cons "inherited" (.str type) .nil)
  else .undefined

/-- The `catch` block of `window.handleEmergencyType` (lines 116-119). -/
def emergencyFailed (error : JsVal) (s : State) : State × Completion Unit :=
  ((s.emit (.consoleError "Error creating emergency alert:" error)).emit
    (.notification "Failed to create emergency alert" "error"), .returned ())

/-- The steps of `window.handleEmergencyType` after the location is known (lines 95-114):
`confirmCall` is the answer to the `confirm` dialog, `hasModal` says whether a modal is open. -/
def emergencyAlertFor (type : String) (location : JsVal) (reply : ProviderReply)
    (confirmCall hasModal : Bool) (s : State) : State × Completion Unit :=
  let alertData : JsVal := .obj (.cons "alert_type" (.str type)
    (.cons "message" (.str ("Emergency alert: " ++ type))
    (.cons "location_lat" (location.prop "latitude")
    (.cons "location_lng" (location.prop "longitude")
    (.cons "address" ((location.prop "address").or (.str "")) .nil)))))
  match createEmergencyAlert alertData reply s with
  | (s1, result) =>
    if (result.prop "error").truthy then emergencyFailed (result.prop "error") s1
    else
      let s2 := s1.emit (.notification "Emergency alert created! Help is on the way." "success")
      let s3 :=
        if (emergencyNumber type).truthy then
          let s4 := s2.emit (.ui "confirm" (.str "Do you want to call 911 now?"))
          if confirmCall then s4.emit (.ui "location.href" (emergencyNumber type)) else s4
        else s2
      ((if hasModal then s3.emit (.ui "remove" (.str "modal")) else s3), .returned ())

/-- The function `window.handleEmergencyType` (`emergency.js`, lines 83-120), with no provider
event arriving while it waits. -/
def handleEmergencyType (type : String) (geo : GeoResult) (reply : ProviderReply)
    (confirmCall hasModal : Bool) (s : State) : State × Completion Unit :=
  if (getCurrentUser s).truthy then
    match geo with
    | .unsupported => emergencyFailed (newError "Geolocation is not supported") s
    | .position latitude longitude address =>
      emergencyAlertFor type
        (.obj (.cons "latitude" latitude (.cons "longitude" longitude
          (.cons "address" address .nil))))
        reply confirmCall hasModal (s.emit (.ui "getCurrentPosition" .undefined))
    | .failed error =>
      emergencyAlertFor type
        (.obj (.cons "latitude" .null (.cons "longitude" .null (.cons "address" .null .nil))))
        reply confirmCall hasModal
        ((s.emit (.ui "getCurrentPosition" .undefined)).emit
          (.consoleError "Geolocation error:" error))
  else (s.emit (.notification "Please log in to create emergency alerts" "error"), .returned ())

/-! ## Page code: signing up (`auth.js`) -/

/-- The `length` of a JavaScript string: its number of UTF-16 code units, two for a character
outside the Basic Multilingual Plane. -/
def jsLength (s : String) : Nat :=
  (s.toList.map (fun c => if c.toNat < 65536 then 1 else 2)).sum

/-- The test `/[A-Z]/.test(s)`. -/
def testUppercase (s : String) : Bool :=
  s.toList.any (fun c => decide (65 ≤ c.toNat) && decide (c.toNat ≤ 90))

/-- The test `/\d/.test(s)`: some digit `0` to `9`. -/
def testDigit (s : String) : Bool :=
  s.toList.any (fun c => decide (48 ≤ c.toNat) && decide (c.toNat ≤ 57))

/-- The function `isPasswordStrong` (`auth.js`, lines 165-169). -/
def isPasswordStrong (password : String) : Bool :=
  decide (8 ≤ jsLength password) && testUppercase password && testDigit password

/-- What is shown for a value assigned to `textContent`; a lone surrogate is shown as the
replacement character U+FFFD. -/
def JsVal.toText : JsVal → String
  | .undefined => "undefined"
  | .null => "null"
  | .bool b => if b then "true" else "false"
  | .num n => toString n
  | .nan => "NaN"
  | .str s => s
  | .obj _ => "[object Object]"
  | .surrogate _ => String.singleton (Char.ofNat 65533)

/-- The submit button of a form, as far as the handlers touch it. -/
structure Button where
  textContent : String
  disabled : Bool
  deriving DecidableEq

/-- The signup form: the values of its six named inputs and its submit button, if it has one. -/
structure SignupForm where
  firstName : String
  lastName : String
  email : String
  phone : String
  password : String
  confirmPassword : String
  submitBtn : Option Button
  deriving DecidableEq

/-- The third argument that `handleSignup` gives to `signUp` (lines 121-125). -/
def signupUserData (form : SignupForm) : JsVal :=
  .obj (.cons "first_name" (.str form.firstName) (.cons "last_name" (.str form.lastName)
    (.cons "phone" (.str form.phone) .nil)))

/-- The function `handleSignup` (`auth.js`, lines 91-146): the state and the submit button
afterwards. Without a submit button line 102 throws. -/
def handleSignup (form : SignupForm) (reply : ProviderReply) (s : State) :
    (State × Option Button) × Completion Unit :=
  let s0 := s.emit (.ui "preventDefault" .undefined)
  match form.submitBtn with
  | none => ((s0, none), .threw)
  | some btn =>
    if form.password ≠ form.confirmPassword then
      ((s0.emit (.notification "Passwords do not match" "error"), some btn), .returned ())
    else if !isPasswordStrong form.password then
      ((s0.emit (.notification
        "Password must be at least 8 characters with uppercase and number" "error"), some btn),
        .returned ())
    else
      match signUp (.str form.email) (.str form.password) (signupUserData form) reply s0 with
      | (s1, result) =>
        if (result.prop "error").truthy then
          (((s1.emit (.consoleError "Signup error:" (result.prop "error"))).emit
            (.notification
              ((((result.prop "error").prop "message").or (.str "Signup failed")).toText)
              "error"),
            some { textContent := btn.textContent, disabled := false }), .returned ())
        else
          (((s1.emit (.notification
            "Account created successfully! Please check your email for verification."
            "success")).emit
            (.ui "setTimeout" (.obj (.cons "delay" (.num 2000)
              (.cons "task" (.str "login.html") .nil)))),
            some { textContent := "Creating Account...", disabled := true }), .returned ())

/-- The `innerHTML` of the elements `length`, `uppercase` and `number` of the signup page, for
those that exist. -/
structure StrengthIndicator where
  length : Option String
  uppercase : Option String
  number : Option String
  deriving DecidableEq

/-- The markup that `updateRequirement` (`auth.js`, lines 197-207) assigns to `innerHTML`. -/
def requirementHtml (isValid : Bool) (text : String) : String :=
  "<i data-lucide=\"" ++ (if isValid then "check" else "x") ++ "\" class=\"w-3 h-3 " ++
    (if isValid then "text-green-500" else "text-red-500") ++ " mr-1\"></i><span class=\"" ++
    (if isValid then "text-green-500" else "text-red-500") ++ "\">" ++ text ++ "</span>"

/-- The function `updatePasswordStrength` (`auth.js`, lines 179-195), for the value `password`
of the password input. -/
def updatePasswordStrength (password : String) (p : StrengthIndicator) : StrengthIndicator :=
  match p.length, p.uppercase, p.number with
  | some _, some _, some _ =>
    { length := some (requirementHtml (decide (8 ≤ jsLength password)) "8+ characters"),
      uppercase := some (requirementHtml (testUppercase password) "Uppercase"),
      number := some (requirementHtml (testDigit password) "Number") }
  | _, _, _ => p

/-- The request of `updateUserProfileDisplay` for the profile row of the user `u`. -/
def profileRequest (u : JsVal) : Request :=
  { table := "profiles", verb := "select", payload := .str "first_name, last_name",
    eqColumn := "id", eqValue := u.prop "id" }

mutual
/-- Whether the listener's body calls the unsubscribe handle of the callback `n` somewhere. -/
def Listener.callsHandle (n : Nat) : Listener → Bool
  | .mk _ body => body.callsHandle n
/-- Whether the body calls the unsubscribe handle of the callback `n` somewhere, also inside a
callback that it subscribes. -/
def Script.callsHandle (n : Nat) : Script → Bool
  | .done => false
  | .raise => false
  | .read rest => rest.callsHandle n
  | .notify _ _ rest => rest.callsHandle n
  | .unsubscribe h rest => h == n || rest.callsHandle n
  | .subscribe l rest => l.callsHandle n || rest.callsHandle n
end

/-- Whether running the body gets to a call of the unsubscribe handle of `n` after which the
body does not subscribe `n` again. -/
def Script.unsubscribes (n : Nat) : Script → Bool
  | .done => false
  | .raise => false
  | .read rest => rest.unsubscribes n
  | .notify _ _ rest => rest.unsubscribes n
  | .unsubscribe h rest => (h == n && !rest.subscribesId n) || rest.unsubscribes n
  | .subscribe l rest => !l.throws && rest.unsubscribes n

/-- The callback `n` is not registered. -/
def Absent (n : Nat) (s : State) : Prop :=
  ∀ x ∈ s.authStateListeners, x.id ≠ n

/-! ## Lemmas on callback bodies -/

theorem bodyOnly_mono {d d1 : Nat} {u : JsVal} {e : Ev} (h : d ≤ d1) (he : BodyOnly d1 u e) :
    BodyOnly d u e := by
  cases e <;> simp only [BodyOnly] at he ⊢
  · exact ⟨le_trans h he.1, he.2⟩
  · exact ⟨le_trans h he.1, he.2⟩

theorem frame_refl (d : Nat) (s : State) : Frame d s s :=
  ⟨rfl, rfl, [], by simp, by simp⟩

theorem frame_trans {d : Nat} {s t r : State} (h1 : Frame d s t) (h2 : Frame d t r) :
    Frame d s r := by
  obtain ⟨hu1, hd1, e1, hl1, he1⟩ := h1
  obtain ⟨hu2, hd2, e2, hl2, he2⟩ := h2
  refine ⟨hu2.trans hu1, hd2.trans hd1, e1 ++ e2, ?_, ?_⟩
  · rw [hl2, hl1, List.append_assoc]
  · intro e he
    rcases List.mem_append.mp he with h | h
    · exact he1 e h
    · rw [← hu1]; exact he2 e h

theorem frame_mono {d d1 : Nat} {s t : State} (h : d ≤ d1) (hf : Frame d1 s t) : Frame d s t := by
  obtain ⟨hu, hd, e, hl, he⟩ := hf
  exact ⟨hu, hd, e, hl, fun x hx => bodyOnly_mono h (he x hx)⟩

theorem frame_emit {d : Nat} (s : State) (e : Ev) (h : BodyOnly d s.currentUser e) :
    Frame d s (s.emit e) :=
  ⟨rfl, rfl, [e], rfl, by simpa using h⟩

theorem frame_handle (d : Nat) (h : Handle) (s : State) : Frame d s (h.call s) :=
  ⟨rfl, rfl, [], by simp [Handle.call], by simp⟩

theorem subscribeFrame_frame {d : Nat} {l : Listener} {s t : State}
    (h : SubscribeFrame d l s t) : Frame d s t := by
  obtain ⟨hu, hd, inner, hl, hi⟩ := h
  refine ⟨hu, hd, _, hl, ?_⟩
  intro e he
  rcases List.mem_cons.mp he with h | h
  · subst h; exact ⟨le_refl d, rfl, rfl⟩
  · exact bodyOnly_mono (Nat.le_succ d) (hi e h)

mutual
theorem onAuthStateChange_frame : ∀ (l : Listener) (d : Nat) (s : State),
    SubscribeFrame d l s (onAuthStateChange d l s).1
  | .mk id body, d, s => by
    have ih := runBody_frame body (d + 1) id
      (State.emit { s with authStateListeners := s.authStateListeners ++ [Listener.mk id body] }
        (.invoke d id s.currentUser "INITIAL_SESSION"))
    obtain ⟨hu, hd, ext, hl, he⟩ := ih
    have hfst : (onAuthStateChange d (Listener.mk id body) s).1 =
        (runBody (d + 1) id body
          (State.emit { s with authStateListeners := s.authStateListeners ++ [Listener.mk id body] }
            (.invoke d id s.currentUser "INITIAL_SESSION"))).1 := by
      rw [onAuthStateChange]
      split <;> simp_all
    rw [hfst]
    refine ⟨hu, hd, ext, ?_, he⟩
    rw [hl]; simp [State.emit, Listener.id]
theorem runBody_frame : ∀ (b : Script) (d me : Nat) (s : State),
    Frame d s (runBody d me b s).1
  | .done, d, me, s => by rw [runBody]; exact frame_refl d s
  | .raise, d, me, s => by rw [runBody]; exact frame_refl d s
  | .read rest, d, me, s => by
    rw [runBody]
    have h0 : BodyOnly d s.currentUser (.sawUser d me (getCurrentUser s)) := ⟨le_refl d, rfl⟩
    exact frame_trans (frame_emit s _ h0) (runBody_frame rest d me _)
  | .notify message type rest, d, me, s => by
    rw [runBody]
    have h0 : BodyOnly d s.currentUser (.notification message type) := trivial
    exact frame_trans (frame_emit s _ h0) (runBody_frame rest d me _)
  | .unsubscribe h rest, d, me, s => by
    rw [runBody]
    exact frame_trans (frame_handle d ⟨h⟩ s) (runBody_frame rest d me _)
  | .subscribe l rest, d, me, s => by
    have h1 := subscribeFrame_frame (onAuthStateChange_frame l d s)
    rw [runBody]
    rcases hr : onAuthStateChange d l s with ⟨s1, c⟩
    rw [hr] at h1
    cases c with
    | returned v => exact frame_trans h1 (runBody_frame rest d me s1)
    | threw => exact h1
end

theorem directCalls_append (d : Nat) (a b : List Ev) :
    directCalls d (a ++ b) = directCalls d a ++ directCalls d b := by
  simp [directCalls]

theorem directCalls_body {d : Nat} {u : JsVal} {inner : List Ev}
    (h : ∀ e ∈ inner, BodyOnly (d + 1) u e) : directCalls d inner = [] := by
  rw [directCalls, List.filter_eq_nil_iff]
  intro e he
  have hb := h e he
  cases e <;> simp [Ev.callDepth, BodyOnly] at hb ⊢
  omega

mutual
theorem onAuthStateChange_threw_iff : ∀ (l : Listener) (d : Nat) (s : State),
    (onAuthStateChange d l s).2 = .threw ↔ l.throws = true
  | .mk id body, d, s => by
    have ih := runBody_threw_iff body (d + 1) id
      (State.emit { s with authStateListeners := s.authStateListeners ++ [Listener.mk id body] }
        (.invoke d id s.currentUser "INITIAL_SESSION"))
    rw [onAuthStateChange, Listener.throws]
    split <;> simp_all
theorem runBody_threw_iff : ∀ (b : Script) (d me : Nat) (s : State),
    (runBody d me b s).2 = .threw ↔ b.throws = true
  | .done, d, me, s => by simp [runBody, Script.throws]
  | .raise, d, me, s => by simp [runBody, Script.throws]
  | .read rest, d, me, s => by
    rw [runBody, Script.throws]; exact runBody_threw_iff rest d me _
  | .notify message type rest, d, me, s => by
    rw [runBody, Script.throws]; exact runBody_threw_iff rest d me _
  | .unsubscribe h rest, d, me, s => by
    rw [runBody, Script.throws]; exact runBody_threw_iff rest d me _
  | .subscribe l rest, d, me, s => by
    have h1 := onAuthStateChange_threw_iff l d s
    rw [runBody, Script.throws]
    rcases hr : onAuthStateChange d l s with ⟨s1, c⟩
    rw [hr] at h1
    cases c with
    | returned v =>
      have h2 := runBody_threw_iff rest d me s1
      simp at h1
      simp [h1, h2]
    | threw =>
      simp at h1
      simp [h1]
end

theorem callListener_threw_iff (d : Nat) (l : Listener) (user : JsVal) (event : String)
    (s : State) : (callListener d l user event s).2 = .threw ↔ l.throws = true := by
  cases l with
  | mk id body => simp [callListener, Listener.id, Listener.body, Listener.throws, runBody_threw_iff]

theorem callListener_frame (d : Nat) (l : Listener) (event : String) (s : State) :
    (callListener d l s.currentUser event s).1.currentUser = s.currentUser ∧
    (callListener d l s.currentUser event s).1.document = s.document ∧
    ∃ inner, (callListener d l s.currentUser event s).1.log =
        s.log ++ Ev.invoke d l.id s.currentUser event :: inner ∧
      ∀ e ∈ inner, BodyOnly (d + 1) s.currentUser e := by
  obtain ⟨hu, hd, ext, hl, he⟩ := runBody_frame l.body (d + 1) l.id
    (s.emit (.invoke d l.id s.currentUser event))
  refine ⟨hu, hd, ext, ?_, he⟩
  rw [callListener, hl]; simp [State.emit]

theorem forEachListener_fanOut (event : String) : ∀ (ls : List Listener) (s : State),
    FanOut event ls s (forEachListener event ls s).1
  | [], s => ⟨rfl, rfl, [], by simp [forEachListener], by simp, by simp [directCalls, reached]⟩
  | l :: rest, s => by
    obtain ⟨hu, hd, inner, hl, hi⟩ := callListener_frame 0 l event s
    have ht := callListener_threw_iff 0 l s.currentUser event s
    have hhead : ∀ e ∈ Ev.invoke 0 l.id s.currentUser event :: inner,
        FanEv event s.currentUser e := by
      intro e he
      rcases List.mem_cons.mp he with h | h
      · exact Or.inl ⟨l.id, h⟩
      · exact Or.inr (hi e h)
    have hcalls : directCalls 0 (Ev.invoke 0 l.id s.currentUser event :: inner) =
        [fanOutCall s.currentUser event l] := by
      have h0 : directCalls 0 [Ev.invoke 0 l.id s.currentUser event] =
          [Ev.invoke 0 l.id s.currentUser event] := by
        simp [directCalls, Ev.callDepth]
      have h1 := directCalls_append 0 [Ev.invoke 0 l.id s.currentUser event] inner
      rw [h0, directCalls_body hi] at h1
      simpa [fanOutCall] using h1
    rw [forEachListener]
    rcases hr : callListener 0 l s.currentUser event s with ⟨s1, c⟩
    rw [hr] at hu hd hl ht
    simp only at hu hd hl ht
    cases c with
    | threw =>
      have hth : l.throws = true := ht.mp rfl
      refine ⟨hu, hd, _, hl, hhead, ?_⟩
      rw [hcalls]; simp [reached, hth]
    | returned v =>
      have hth : l.throws = false := by
        cases h : l.throws with
        | false => rfl
        | true => exact absurd (ht.mpr h) (by simp)
      obtain ⟨hu2, hd2, ext2, hl2, he2, hc2⟩ := forEachListener_fanOut event rest s1
      refine ⟨hu2.trans hu, hd2.trans hd, (Ev.invoke 0 l.id s.currentUser event :: inner) ++ ext2,
        ?_, ?_, ?_⟩
      · show (forEachListener event rest s1).1.log = _
        rw [hl2, hl, List.append_assoc]
      · intro e he
        rcases List.mem_append.mp he with h | h
        · exact hhead e h
        · rw [← hu]; exact he2 e h
      · rw [directCalls_append, hcalls, hc2, hu]
        simp [reached, hth]

theorem forEachListener_threw_iff (event : String) : ∀ (ls : List Listener) (s : State),
    (forEachListener event ls s).2 = .threw ↔ ∃ l ∈ ls, l.throws = true
  | [], s => by simp [forEachListener]
  | l :: rest, s => by
    have ht := callListener_threw_iff 0 l s.currentUser event s
    rw [forEachListener]
    rcases hr : callListener 0 l s.currentUser event s with ⟨s1, c⟩
    rw [hr] at ht
    cases c with
    | threw => simp at ht; simp [ht]
    | returned v =>
      simp at ht
      have ih := forEachListener_threw_iff event rest s1
      simp [ht, ih]

/-! ## Lemmas on the provider's callback -/

theorem newEvents_of_append {s t : State} {ext : List Ev} (h : t.log = s.log ++ ext) :
    newEvents s t = ext := by
  simp [newEvents, h]

theorem updateUserProfileDisplay_frame (s : State) :
    (updateUserProfileDisplay s).currentUser = s.currentUser ∧
    (updateUserProfileDisplay s).authStateListeners = s.authStateListeners ∧
    ∃ ui, (updateUserProfileDisplay s).log = s.log ++ ui ∧ ∀ e ∈ ui, ∃ r, e = Ev.request r := by
  unfold updateUserProfileDisplay
  split
  · exact ⟨rfl, rfl, [_], rfl, by simp⟩
  · exact ⟨rfl, rfl, [], by simp, by simp⟩

theorem updateAuthUI_frame (s : State) :
    (updateAuthUI s).currentUser = s.currentUser ∧
    (updateAuthUI s).authStateListeners = s.authStateListeners ∧
    ∃ ui, (updateAuthUI s).log = s.log ++ ui ∧ ∀ e ∈ ui, ∃ r, e = Ev.request r := by
  unfold updateAuthUI
  split
  · split
    · exact updateUserProfileDisplay_frame _
    · exact ⟨rfl, rfl, [], by simp, by simp⟩
  · exact ⟨rfl, rfl, [], by simp, by simp⟩

theorem directCalls_requests {d : Nat} {ui : List Ev} (h : ∀ e ∈ ui, ∃ r, e = Ev.request r) :
    directCalls d ui = [] := by
  rw [directCalls, List.filter_eq_nil_iff]
  intro e he
  obtain ⟨r, rfl⟩ := h e he
  simp [Ev.callDepth]

theorem onProviderEvent_eq (event : String) (session : JsVal) (s : State) :
    onProviderEvent event session s =
      match forEachListener event s.authStateListeners (afterWrite session s) with
      | (s2, .returned _) => (updateAuthUI s2, .returned ())
      | (s2, .threw) => (s2, .threw) := rfl

theorem onProviderEvent_threw_iff (event : String) (session : JsVal) (s : State) :
    (onProviderEvent event session s).2 = .threw ↔
      ∃ l ∈ s.authStateListeners, l.throws = true := by
  have h := forEachListener_threw_iff event s.authStateListeners (afterWrite session s)
  rw [onProviderEvent_eq]
  rcases hr : forEachListener event s.authStateListeners (afterWrite session s) with ⟨s2, c⟩
  rw [hr] at h
  cases c <;> simpa using h

theorem onProviderEvent_threw_state (event : String) (session : JsVal) (s : State)
    (h : (onProviderEvent event session s).2 = .threw) :
    (onProviderEvent event session s).1 =
      (forEachListener event s.authStateListeners (afterWrite session s)).1 := by
  rw [onProviderEvent_eq] at h ⊢
  rcases hr : forEachListener event s.authStateListeners (afterWrite session s) with ⟨s2, c⟩
  rw [hr] at h
  cases c <;> simp at h ⊢

theorem onProviderEvent_returned_state (event : String) (session : JsVal) (s : State)
    (h : (onProviderEvent event session s).2 = .returned ()) :
    (onProviderEvent event session s).1 =
      updateAuthUI (forEachListener event s.authStateListeners (afterWrite session s)).1 := by
  rw [onProviderEvent_eq] at h ⊢
  rcases hr : forEachListener event s.authStateListeners (afterWrite session s) with ⟨s2, c⟩
  rw [hr] at h
  cases c <;> simp at h ⊢

theorem onProviderEvent_spec (event : String) (session : JsVal) (s : State) :
    (onProviderEvent event session s).1.currentUser = sessionUser session ∧
    ∃ ext ui, (onProviderEvent event session s).1.log = s.log ++ (ext ++ ui) ∧
      (∀ e ∈ ext, FanEv event (sessionUser session) e) ∧
      directCalls 0 ext =
        (reached s.authStateListeners).map (fanOutCall (sessionUser session) event) ∧
      (∀ e ∈ ui, ∃ r, e = Ev.request r) ∧
      ((onProviderEvent event session s).2 = .threw → ui = []) := by
  obtain ⟨hu, -, ext, hl, he, hc⟩ :=
    forEachListener_fanOut event s.authStateListeners (afterWrite session s)
  have hu0 : (afterWrite session s).currentUser = sessionUser session := rfl
  have hl0 : (afterWrite session s).log = s.log := rfl
  rw [hu0] at hu he hc
  rw [hl0] at hl
  cases hcomp : (onProviderEvent event session s).2 with
  | threw =>
    rw [onProviderEvent_threw_state event session s hcomp]
    exact ⟨hu, ext, [], by simpa using hl, he, hc, by simp, fun _ => rfl⟩
  | returned v =>
    rw [onProviderEvent_returned_state event session s hcomp]
    obtain ⟨hu2, -, ui, hl2, hui⟩ :=
      updateAuthUI_frame (forEachListener event s.authStateListeners (afterWrite session s)).1
    refine ⟨hu2.trans hu, ext, ui, ?_, he, hc, hui, fun h => by simp at h⟩
    rw [hl2, hl, List.append_assoc]

/-! ## Subscription -/

/-- C1: for every state and every callback, `onAuthStateChange(callback)` called at any stack
depth `d` logs, as its first event, the call `callback(getCurrentUser(), 'INITIAL_SESSION')` with
the current user of the state it was called in, and that is the only callback call made at depth
`d` during the subscription: whatever else is logged comes from inside the callback's body. -/
theorem onAuthStateChange_calls_callback_once (d : Nat) (l : Listener) (s : State) :
    (∃ inner, (onAuthStateChange d l s).1.log =
        s.log ++ Ev.invoke d l.id (getCurrentUser s) "INITIAL_SESSION" :: inner) ∧
    directCalls d (newEvents s (onAuthStateChange d l s).1) =
      [Ev.invoke d l.id (getCurrentUser s) "INITIAL_SESSION"] := by
  obtain ⟨-, -, inner, hl, hi⟩ := onAuthStateChange_frame l d s
  refine ⟨⟨inner, hl⟩, ?_⟩
  rw [newEvents_of_append hl]
  have h0 : directCalls d [Ev.invoke d l.id s.currentUser "INITIAL_SESSION"] =
      [Ev.invoke d l.id s.currentUser "INITIAL_SESSION"] := by
    simp [directCalls, Ev.callDepth]
  have h1 := directCalls_append d [Ev.invoke d l.id s.currentUser "INITIAL_SESSION"] inner
  rw [h0, directCalls_body hi] at h1
  simpa [getCurrentUser] using h1

/-! ## The current user -/

theorem quiet_refl (s : State) : Quiet s s :=
  ⟨rfl, rfl, rfl, [], by simp, by simp⟩

theorem quiet_emit (s : State) (e : Ev) (h : e.callDepth = none) : Quiet s (s.emit e) :=
  ⟨rfl, rfl, rfl, [e], rfl, by simpa using h⟩

theorem quiet_trans {s t r : State} (h1 : Quiet s t) (h2 : Quiet t r) : Quiet s r := by
  obtain ⟨hu1, ha1, hd1, e1, hl1, he1⟩ := h1
  obtain ⟨hu2, ha2, hd2, e2, hl2, he2⟩ := h2
  refine ⟨hu2.trans hu1, ha2.trans ha1, hd2.trans hd1, e1 ++ e2, ?_, ?_⟩
  · rw [hl2, hl1, List.append_assoc]
  · intro e he
    rcases List.mem_append.mp he with h | h
    · exact he1 e h
    · exact he2 e h

theorem authCall_quiet (op label : String) (args : JsVal) (reply : ProviderReply) (s : State) :
    Quiet s (authCall op label args reply s).1 := by
  have h0 : Quiet s (s.emit (.providerCall op args)) := quiet_emit s _ rfl
  unfold authCall
  cases reply with
  | resolved value =>
    by_cases h1 : value.nullish = true
    · simp only [h1, if_true]
      exact quiet_trans h0 (quiet_emit _ _ rfl)
    · by_cases h2 : (value.prop "error").truthy = true
      · simp only [h1, h2, if_true, if_false]
        exact quiet_trans h0 (quiet_emit _ _ rfl)
      · simp only [h1, h2, if_false]
        exact h0
  | rejected error => exact quiet_trans h0 (quiet_emit _ _ rfl)

theorem signOut_quiet (reply : ProviderReply) (s : State) : Quiet s (signOut reply s).1 := by
  have h0 : Quiet s (s.emit (.providerCall "signOut" .undefined)) := quiet_emit s _ rfl
  unfold signOut
  cases reply with
  | resolved value =>
    by_cases h1 : value.nullish = true
    · simp only [h1, if_true]
      exact quiet_trans h0 (quiet_emit _ _ rfl)
    · by_cases h2 : (value.prop "error").truthy = true
      · simp only [h1, h2, if_true, if_false]
        exact quiet_trans h0 (quiet_emit _ _ rfl)
      · simp only [h1, h2, if_false]
        exact h0
  | rejected error => exact quiet_trans h0 (quiet_emit _ _ rfl)

theorem step_currentUser (s : State) (i : Input) (h : i.isProviderEvent = false) :
    (step s i).currentUser = s.currentUser := by
  cases i with
  | providerEvent event session => simp [Input.isProviderEvent] at h
  | subscribe l => exact (onAuthStateChange_frame l 0 s).1
  | unsubscribe hd => rfl
  | getCurrentUser => rfl
  | signUp email password userData reply => exact (authCall_quiet _ _ _ reply s).1
  | signIn email password reply => exact (authCall_quiet _ _ _ reply s).1
  | signOut reply => exact (signOut_quiet reply s).1

theorem run_currentUser : ∀ (inputs : List Input) (s : State),
    (∀ i ∈ inputs, i.isProviderEvent = false) → (run inputs s).currentUser = s.currentUser
  | [], s, _ => rfl
  | i :: rest, s, h => by
    have h1 := step_currentUser s i (h i (List.mem_cons_self i rest))
    have h2 := run_currentUser rest (step s i) (fun j hj => h j (List.mem_cons_of_mem i hj))
    rw [run, List.foldl_cons]
    rw [run] at h2
    rw [h2, h1]

theorem run_append (a b : List Input) (s : State) : run (a ++ b) s = run b (run a s) := by
  simp [run, List.foldl_append]

theorem sessionUser_eq (session : JsVal) :
    sessionUser session =
      if session.nullish = true then JsVal.null
      else if (session.prop "user").truthy = true then session.prop "user" else JsVal.null := by
  unfold sessionUser JsVal.optProp JsVal.or
  by_cases h : session.nullish = true
  · simp [h, JsVal.truthy]
  · simp [h]

/-- C2: in every sequence of calls into the module, once the provider's callback has processed
an event and until it processes the next one, `getCurrentUser()` returns that event's
`session.user` when the session is present and carries a (truthy) user, and `null` when the
session is absent (`null` or `undefined`) or carries no user. -/
theorem getCurrentUser_after_event (before later : List Input) (event : String)
    (session : JsVal) (s : State) (hlater : ∀ i ∈ later, i.isProviderEvent = false) :
    getCurrentUser (run (before ++ Input.providerEvent event session :: later) s) =
      if session.nullish = true then JsVal.null
      else if (session.prop "user").truthy = true then session.prop "user" else JsVal.null := by
  have h := run_currentUser later (step (run before s) (.providerEvent event session)) hlater
  have hrun : run (before ++ Input.providerEvent event session :: later) s =
      run later (step (run before s) (.providerEvent event session)) := by
    rw [run_append]; rfl
  rw [hrun, getCurrentUser, h, ← sessionUser_eq]
  exact (onProviderEvent_spec event session _).1

/-- Witness for C2: the scenario of the specification. An observer is subscribed, the provider
fires `SIGNED_IN` with the user `{id: "u1"}`, the page then reads the user and signs nobody in:
`getCurrentUser()` is `{id: "u1"}`. -/
theorem getCurrentUser_after_event_witness :
    getCurrentUser (run ([Input.subscribe (.mk 1 (.read .done))] ++
      Input.providerEvent "SIGNED_IN"
        (.obj (.cons "user" (.obj (.cons "id" (.str "u1") .nil)) .nil)) ::
      [Input.getCurrentUser, Input.unsubscribe ⟨1⟩]) (State.init [])) =
      JsVal.obj (.cons "id" (.str "u1") .nil) :=
  getCurrentUser_after_event [Input.subscribe (.mk 1 (.read .done))]
    [Input.getCurrentUser, Input.unsubscribe ⟨1⟩] "SIGNED_IN"
    (.obj (.cons "user" (.obj (.cons "id" (.str "u1") .nil)) .nil)) (State.init [])
    (by decide)

/-! ## Fan-out -/

theorem fanEv_userSeen {event : String} {u : JsVal} {e : Ev} (h : FanEv event u e) (v : JsVal)
    (hv : e.userSeen = some v) : v = u := by
  rcases h with ⟨id, rfl⟩ | h
  · simpa [Ev.userSeen] using hv.symm
  · cases e <;> simp [Ev.userSeen, BodyOnly] at h hv
    · rw [← hv]; exact h.2.1
    · rw [← hv]; exact h.2

theorem reached_of_no_throw : ∀ (ls : List Listener), (∀ l ∈ ls, l.throws = false) → reached ls = ls
  | [], _ => rfl
  | l :: rest, h => by
    have h1 : l.throws = false := h l (List.mem_cons_self l rest)
    have h2 := reached_of_no_throw rest (fun x hx => h x (List.mem_cons_of_mem l hx))
    simp [reached, h1, h2]

theorem reached_stops : ∀ (earlier later : List Listener) (a : Listener),
    (∀ l ∈ earlier, l.throws = false) → a.throws = true →
    reached (earlier ++ a :: later) = earlier ++ [a]
  | [], later, a, _, ha => by simp [reached, ha]
  | l :: rest, later, a, h, ha => by
    have h1 : l.throws = false := h l (List.mem_cons_self l rest)
    have h2 := reached_stops rest later a (fun x hx => h x (List.mem_cons_of_mem l hx)) ha
    simp [reached, h1, h2]

theorem onProviderEvent_directCalls (event : String) (session : JsVal) (s : State) :
    directCalls 0 (newEvents s (onProviderEvent event session s).1) =
      (reached s.authStateListeners).map (fanOutCall (sessionUser session) event) := by
  obtain ⟨-, ext, ui, hl, -, hc, hui, -⟩ := onProviderEvent_spec event session s
  rw [newEvents_of_append hl, directCalls_append, hc, directCalls_requests hui,
    List.append_nil]

/-- C3: no torn state. For every provider event, every state and every list of registered
observers, each value of the current user that is seen while the event is handled (the `user`
argument of every callback call, and the result of every `getCurrentUser()` call made inside a
callback) is the event's user `session?.user || null`, every call made by the fan-out has the
arguments `(that user, event)`, and `getCurrentUser()` returns that user afterwards. -/
theorem no_torn_state (event : String) (session : JsVal) (s : State) :
    (∀ e ∈ newEvents s (onProviderEvent event session s).1,
      ∀ v, e.userSeen = some v → v = sessionUser session) ∧
    (∀ e ∈ directCalls 0 (newEvents s (onProviderEvent event session s).1),
      ∃ l ∈ s.authStateListeners, e = Ev.invoke 0 l.id (sessionUser session) event) ∧
    getCurrentUser (onProviderEvent event session s).1 = sessionUser session := by
  obtain ⟨hu, ext, ui, hl, he, -, hui, -⟩ := onProviderEvent_spec event session s
  refine ⟨?_, ?_, hu⟩
  · rw [newEvents_of_append hl]
    intro e hmem v hv
    rcases List.mem_append.mp hmem with h | h
    · exact fanEv_userSeen (he e h) v hv
    · obtain ⟨r, rfl⟩ := hui e h
      simp [Ev.userSeen] at hv
  · rw [onProviderEvent_directCalls]
    intro e hmem
    obtain ⟨l, hl1, rfl⟩ := List.mem_map.mp hmem
    refine ⟨l, ?_, rfl⟩
    have hsub : ∀ (ls : List Listener), ∀ x ∈ reached ls, x ∈ ls := by
      intro ls
      induction ls with
      | nil => simp [reached]
      | cons a rest ih =>
        intro x hx
        by_cases ha : a.throws = true
        · simp [reached, ha] at hx; simp [hx]
        · simp [reached, ha] at hx
          rcases hx with h | h
          · simp [h]
          · exact List.mem_cons_of_mem a (ih x h)
    exact hsub _ l hl1

/-- Example for C3: the previous user was `{id: "old"}`; two observers that read
`getCurrentUser()` when notified of `SIGNED_IN` for `{id: "u1"}` are both passed, and both read,
`{id: "u1"}`. -/
theorem no_torn_state_example :
    newEvents
      { currentUser := .obj (.cons "id" (.str "old") .nil),
        authStateListeners := [.mk 1 (.read .done), .mk 2 (.read .done)],
        document := [], log := [] }
      (onProviderEvent "SIGNED_IN" (.obj (.cons "user" (.obj (.cons "id" (.str "u1") .nil)) .nil))
        { currentUser := .obj (.cons "id" (.str "old") .nil),
          authStateListeners := [.mk 1 (.read .done), .mk 2 (.read .done)],
          document := [], log := [] }).1 =
      [.invoke 0 1 (.obj (.cons "id" (.str "u1") .nil)) "SIGNED_IN",
       .sawUser 1 1 (.obj (.cons "id" (.str "u1") .nil)),
       .invoke 0 2 (.obj (.cons "id" (.str "u1") .nil)) "SIGNED_IN",
       .sawUser 1 2 (.obj (.cons "id" (.str "u1") .nil))] := by
  decide

/-- Counterexample to C4 as stated: with a first observer that throws and a second one that
does not, `SIGNED_OUT` produces the call of the first observer only, not one call per
registration. -/
theorem fanOut_order_counterexample :
    directCalls 0 (newEvents
      { currentUser := .null, authStateListeners := [.mk 1 .raise, .mk 2 .done],
        document := [], log := [] }
      (onProviderEvent "SIGNED_OUT" .null
        { currentUser := .null, authStateListeners := [.mk 1 .raise, .mk 2 .done],
          document := [], log := [] }).1) ≠
      [Listener.mk 1 .raise, Listener.mk 2 .done].map (fanOutCall .null "SIGNED_OUT") := by
  decide

/-- C4, amended: for every provider event and every list of registered observers, the calls
made by the provider's callback are the calls `listener(new state, event)` of the observers in
registration order, one per registration, from the first observer up to and including the first
one that throws; when the callback completes normally that is every registration. -/
theorem fanOut_order (event : String) (session : JsVal) (s : State) :
    directCalls 0 (newEvents s (onProviderEvent event session s).1) =
      (reached s.authStateListeners).map (fanOutCall (sessionUser session) event) ∧
    ((onProviderEvent event session s).2 = .returned () →
      directCalls 0 (newEvents s (onProviderEvent event session s).1) =
        s.authStateListeners.map (fanOutCall (sessionUser session) event)) := by
  refine ⟨onProviderEvent_directCalls event session s, fun hret => ?_⟩
  rw [onProviderEvent_directCalls, reached_of_no_throw]
  intro l hl
  cases hthrow : l.throws with
  | false => rfl
  | true =>
    have := (onProviderEvent_threw_iff event session s).mpr ⟨l, hl, hthrow⟩
    rw [hret] at this
    exact absurd this (by simp)

/-- Witness for C4: the scenario of the specification. With `obs1` then `obs2` subscribed,
`SIGNED_OUT` produces `obs1(null, 'SIGNED_OUT')` then `obs2(null, 'SIGNED_OUT')`. -/
theorem fanOut_order_witness :
    directCalls 0 (newEvents
      { currentUser := .null, authStateListeners := [.mk 1 .done, .mk 2 .done],
        document := [], log := [] }
      (onProviderEvent "SIGNED_OUT" .null
        { currentUser := .null, authStateListeners := [.mk 1 .done, .mk 2 .done],
          document := [], log := [] }).1) =
      [Ev.invoke 0 1 .null "SIGNED_OUT", Ev.invoke 0 2 .null "SIGNED_OUT"] :=
  (fanOut_order "SIGNED_OUT" .null
    { currentUser := .null, authStateListeners := [.mk 1 .done, .mk 2 .done],
      document := [], log := [] }).2 (by decide)

/-- Counterexample to C5 as stated: of three observers, the second throws when it is notified of
`SIGNED_IN`; the third, registered after it, is not called for that event. -/
theorem fanOut_isolation_counterexample :
    Ev.invoke 0 2 .null "SIGNED_IN" ∈ newEvents
      { currentUser := .null, authStateListeners := [.mk 1 .done, .mk 2 .raise, .mk 3 .done],
        document := [], log := [] }
      (onProviderEvent "SIGNED_IN" .null
        { currentUser := .null, authStateListeners := [.mk 1 .done, .mk 2 .raise, .mk 3 .done],
          document := [], log := [] }).1 ∧
    (callListener 0 (.mk 2 .raise) .null "SIGNED_IN"
      { currentUser := .null, authStateListeners := [.mk 1 .done, .mk 2 .raise, .mk 3 .done],
        document := [], log := [] }).2 = .threw ∧
    ¬ ∃ e ∈ newEvents
      { currentUser := .null, authStateListeners := [.mk 1 .done, .mk 2 .raise, .mk 3 .done],
        document := [], log := [] }
      (onProviderEvent "SIGNED_IN" .null
        { currentUser := .null, authStateListeners := [.mk 1 .done, .mk 2 .raise, .mk 3 .done],
          document := [], log := [] }).1, e = Ev.invoke 0 3 .null "SIGNED_IN" := by
  decide

/-- C5, amended: there is no fan-out isolation. For every provider event, if an observer `a`
throws while it is notified (the observers registered before it did not), the calls made by the
provider's callback are those of the observers registered before `a` and of `a`, in order: no
observer registered after `a` is called for that event, and the error leaves the callback. -/
theorem fanOut_stops_at_error (event : String) (session : JsVal) (s : State)
    (earlier later : List Listener) (a : Listener)
    (hlist : s.authStateListeners = earlier ++ a :: later)
    (hearlier : ∀ l ∈ earlier, l.throws = false) (ha : a.throws = true) :
    directCalls 0 (newEvents s (onProviderEvent event session s).1) =
      (earlier ++ [a]).map (fanOutCall (sessionUser session) event) ∧
    (onProviderEvent event session s).2 = .threw := by
  refine ⟨?_, ?_⟩
  · rw [onProviderEvent_directCalls, hlist, reached_stops earlier later a hearlier ha]
  · exact (onProviderEvent_threw_iff event session s).mpr
      ⟨a, by rw [hlist]; simp, ha⟩

/-- Witness for C5, amended: `obs2` throws; `obs1` and `obs2` are called, `obs3` and `obs4` are
not. -/
theorem fanOut_stops_at_error_witness :
    directCalls 0 (newEvents
      { currentUser := .null,
        authStateListeners := [.mk 1 .done, .mk 2 (.read .raise), .mk 3 .done, .mk 4 .done],
        document := [], log := [] }
      (onProviderEvent "TOKEN_REFRESHED" .null
        { currentUser := .null,
          authStateListeners := [.mk 1 .done, .mk 2 (.read .raise), .mk 3 .done, .mk 4 .done],
          document := [], log := [] }).1) =
      ([Listener.mk 1 .done] ++ [Listener.mk 2 (.read .raise)]).map
        (fanOutCall (sessionUser .null) "TOKEN_REFRESHED") ∧
    (onProviderEvent "TOKEN_REFRESHED" .null
      { currentUser := .null,
        authStateListeners := [.mk 1 .done, .mk 2 (.read .raise), .mk 3 .done, .mk 4 .done],
        document := [], log := [] }).2 = .threw :=
  fanOut_stops_at_error "TOKEN_REFRESHED" .null
    { currentUser := .null,
      authStateListeners := [.mk 1 .done, .mk 2 (.read .raise), .mk 3 .done, .mk 4 .done],
      document := [], log := [] }
    [.mk 1 .done] [.mk 3 .done, .mk 4 .done] (.mk 2 (.read .raise)) rfl (by decide) (by decide)

/-- Counterexample to C8 as stated: a user signs in on a page with a visible login button while
an observer that throws is registered. The provider's callback ends with the error, and the page
is left as it was: the button has not been given the class `hidden`, which `updateAuthUI` would
have added. -/
theorem onProviderEvent_error_counterexample :
    (onProviderEvent "SIGNED_IN" (.obj (.cons "user" (.obj (.cons "id" (.str "u1") .nil)) .nil))
      { currentUser := .null, authStateListeners := [.mk 1 .raise],
        document := [("loginBtn", ⟨[], "Login"⟩)], log := [] }).2 = .threw ∧
    (onProviderEvent "SIGNED_IN" (.obj (.cons "user" (.obj (.cons "id" (.str "u1") .nil)) .nil))
      { currentUser := .null, authStateListeners := [.mk 1 .raise],
        document := [("loginBtn", ⟨[], "Login"⟩)], log := [] }).1.document =
      [("loginBtn", ⟨[], "Login"⟩)] ∧
    (updateAuthUI
      { currentUser := .obj (.cons "id" (.str "u1") .nil), authStateListeners := [.mk 1 .raise],
        document := [("loginBtn", ⟨[], "Login"⟩)], log := [] }).document =
      [("loginBtn", ⟨["hidden"], "Login"⟩)] := by
  decide

/-- C8, amended: an error thrown by an observer during fan-out leaves the provider's callback.
For every provider event, when a registered observer throws, the callback ends with that error
after the session state was updated, and the auth UI update is not performed (the page is
unchanged and no profile request is issued); when no registered observer throws, the callback
completes normally with the session state updated and `updateAuthUI` run after the fan-out. -/
theorem onProviderEvent_error_propagates (event : String) (session : JsVal) (s : State) :
    ((∃ l ∈ s.authStateListeners, l.throws = true) →
      (onProviderEvent event session s).2 = .threw ∧
      getCurrentUser (onProviderEvent event session s).1 = sessionUser session ∧
      (onProviderEvent event session s).1.document = s.document ∧
      ∀ e ∈ newEvents s (onProviderEvent event session s).1, ∀ r, e ≠ Ev.request r) ∧
    ((∀ l ∈ s.authStateListeners, l.throws = false) →
      (onProviderEvent event session s).2 = .returned () ∧
      getCurrentUser (onProviderEvent event session s).1 = sessionUser session ∧
      (onProviderEvent event session s).1 =
        updateAuthUI (forEachListener event s.authStateListeners (afterWrite session s)).1) := by
  obtain ⟨hu, ext, ui, hl, he, -, -, hui⟩ := onProviderEvent_spec event session s
  refine ⟨fun hex => ?_, fun hall => ?_⟩
  · have hthrew := (onProviderEvent_threw_iff event session s).mpr hex
    refine ⟨hthrew, hu, ?_, ?_⟩
    · rw [onProviderEvent_threw_state event session s hthrew]
      exact (forEachListener_fanOut event s.authStateListeners (afterWrite session s)).2.1
    · rw [newEvents_of_append hl, hui hthrew, List.append_nil]
      intro e hmem r hr
      subst hr
      rcases he _ hmem with ⟨id, h⟩ | h
      · simp at h
      · simp [BodyOnly] at h
  · have hret : (onProviderEvent event session s).2 = .returned () := by
      cases hc : (onProviderEvent event session s).2 with
      | returned v => rfl
      | threw =>
        obtain ⟨l, hl1, hl2⟩ := (onProviderEvent_threw_iff event session s).mp hc
        rw [hall l hl1] at hl2
        simp at hl2
    exact ⟨hret, hu, onProviderEvent_returned_state event session s hret⟩

/-- Witness for C8, amended: both cases at concrete states. -/
theorem onProviderEvent_error_propagates_witness :
    ((onProviderEvent "SIGNED_OUT" .null
        { currentUser := .str "u", authStateListeners := [.mk 1 .done, .mk 2 .raise],
          document := [("logoutBtn", ⟨[], "Logout"⟩)], log := [] }).2 = .threw ∧
      (onProviderEvent "SIGNED_OUT" .null
        { currentUser := .str "u", authStateListeners := [.mk 1 .done, .mk 2 .raise],
          document := [("logoutBtn", ⟨[], "Logout"⟩)], log := [] }).1.document =
        [("logoutBtn", ⟨[], "Logout"⟩)]) ∧
    (onProviderEvent "SIGNED_OUT" .null
        { currentUser := .str "u", authStateListeners := [.mk 1 .done],
          document := [("logoutBtn", ⟨[], "Logout"⟩)], log := [] }).2 = .returned () :=
  ⟨⟨((onProviderEvent_error_propagates "SIGNED_OUT" .null
        { currentUser := .str "u", authStateListeners := [.mk 1 .done, .mk 2 .raise],
          document := [("logoutBtn", ⟨[], "Logout"⟩)], log := [] }).1 (by decide)).1,
     ((onProviderEvent_error_propagates "SIGNED_OUT" .null
        { currentUser := .str "u", authStateListeners := [.mk 1 .done, .mk 2 .raise],
          document := [("logoutBtn", ⟨[], "Logout"⟩)], log := [] }).1 (by decide)).2.2.1⟩,
   ((onProviderEvent_error_propagates "SIGNED_OUT" .null
        { currentUser := .str "u", authStateListeners := [.mk 1 .done],
          document := [("logoutBtn", ⟨[], "Logout"⟩)], log := [] }).2 (by decide)).1⟩

/-! ## Unsubscribing -/

/-- C7: unsubscribing is idempotent. For every state and every unsubscribe handle, calling the
handle twice gives the state that calling it once gives; two calls in a row complete normally;
and neither call removes another observer: every listener that is not the handle's callback
occurs as often after the calls as before, and the list after the calls is the old list with
entries left out, in the old order. Nothing but the list of listeners changes. -/
theorem unsubscribe_idempotent (h : Handle) (s : State) (d me : Nat) :
    h.call (h.call s) = h.call s ∧
    runBody d me (.unsubscribe h.callback (.unsubscribe h.callback .done)) s =
      (h.call s, .returned ()) ∧
    (∀ l : Listener, l.id ≠ h.callback →
      (h.call s).authStateListeners.count l = s.authStateListeners.count l ∧
      (h.call (h.call s)).authStateListeners.count l = s.authStateListeners.count l) ∧
    (h.call s).authStateListeners.Sublist s.authStateListeners ∧
    (h.call s).currentUser = s.currentUser ∧ (h.call s).document = s.document ∧
    (h.call s).log = s.log := by
  have hidem : h.call (h.call s) = h.call s := by
    simp [Handle.call, List.filter_filter]
  have hcount : ∀ l : Listener, l.id ≠ h.callback →
      (h.call s).authStateListeners.count l = s.authStateListeners.count l := by
    intro l hl
    simp only [Handle.call]
    exact List.count_filter (by simpa using hl)
  refine ⟨hidem, ?_, ?_, ?_, rfl, rfl, rfl⟩
  · simp only [runBody]
    rw [show (⟨h.callback⟩ : Handle) = h from rfl, hidem]
  · intro l hl
    refine ⟨hcount l hl, ?_⟩
    rw [hidem]
    exact hcount l hl
  · exact List.filter_sublist _

/-! ## Before the first event -/

/-- C9: before the provider's callback has processed any event, whatever else has been called,
`getCurrentUser()` returns `null`; and that is the value it returns after an event whose session
is absent, so the two situations give the same result. -/
theorem getCurrentUser_initially_null (document : List (String × Element))
    (inputs : List Input) (event : String) (session : JsVal) (s : State)
    (hinputs : ∀ i ∈ inputs, i.isProviderEvent = false) (habsent : session.nullish = true) :
    getCurrentUser (run inputs (State.init document)) = JsVal.null ∧
    getCurrentUser (onProviderEvent event session s).1 = JsVal.null ∧
    getCurrentUser (run inputs (State.init document)) =
      getCurrentUser (onProviderEvent event session s).1 := by
  have h1 : getCurrentUser (run inputs (State.init document)) = JsVal.null :=
    run_currentUser inputs (State.init document) hinputs
  have h2 : getCurrentUser (onProviderEvent event session s).1 = JsVal.null := by
    rw [getCurrentUser, (onProviderEvent_spec event session s).1, sessionUser_eq]
    simp [habsent]
  exact ⟨h1, h2, h1.trans h2.symm⟩

/-- Witness for C9: a page that subscribed an observer and called `signIn` without success
reads `null`, as does a page after `SIGNED_OUT` with no session. -/
theorem getCurrentUser_initially_null_witness :
    getCurrentUser (run [Input.subscribe (.mk 1 .done),
        Input.signIn (.str "a@b.c") (.str "pw") (.rejected (.str "network")),
        Input.getCurrentUser] (State.init [])) = JsVal.null ∧
    getCurrentUser (onProviderEvent "SIGNED_OUT" .null
      { currentUser := .str "u", authStateListeners := [], document := [], log := [] }).1 =
      JsVal.null ∧
    getCurrentUser (run [Input.subscribe (.mk 1 .done),
        Input.signIn (.str "a@b.c") (.str "pw") (.rejected (.str "network")),
        Input.getCurrentUser] (State.init [])) =
      getCurrentUser (onProviderEvent "SIGNED_OUT" .null
        { currentUser := .str "u", authStateListeners := [], document := [], log := [] }).1 :=
  getCurrentUser_initially_null [] _ "SIGNED_OUT" .null _ (by decide) rfl

/-! ## What the other calls leave alone -/

/-- C10: the session state is written only by the provider's callback. For every state and every
call into the module that is not a provider event (`onAuthStateChange`, an unsubscribe handle,
`getCurrentUser`, `signUp`, `signIn`, `signOut` with any reply of the provider, success or
failure), `getCurrentUser()` returns afterwards what it returned before; a subscription makes
exactly one callback call of its own, the initial one, and every callback call logged during it
is an `'INITIAL_SESSION'` call; the other calls make no callback call at all. A callback body
built from these operations does not change the current user either. -/
theorem only_provider_event_writes (i : Input) (s : State) (h : i.isProviderEvent = false) :
    getCurrentUser (step s i) = getCurrentUser s ∧
    (∀ l, i = Input.subscribe l →
      directCalls 0 (newEvents s (step s i)) =
        [Ev.invoke 0 l.id (getCurrentUser s) "INITIAL_SESSION"] ∧
      ∀ e ∈ newEvents s (step s i), ∀ d id u ev, e = Ev.invoke d id u ev →
        ev = "INITIAL_SESSION" ∧ u = getCurrentUser s) ∧
    ((∀ l, i ≠ Input.subscribe l) → ∀ e ∈ newEvents s (step s i), e.callDepth = none) ∧
    (∀ d me b, getCurrentUser (runBody d me b s).1 = getCurrentUser s) := by
  refine ⟨step_currentUser s i h, ?_, ?_, fun d me b => (runBody_frame b d me s).1⟩
  · intro l hl
    subst hl
    have hf := onAuthStateChange_frame l 0 s
    obtain ⟨-, -, ext, hlog, hext⟩ := subscribeFrame_frame hf
    obtain ⟨-, -, inner, hlog2, hinner⟩ := hf
    refine ⟨?_, ?_⟩
    · show directCalls 0 (newEvents s (onAuthStateChange 0 l s).1) = _
      rw [newEvents_of_append hlog2]
      have h0 : directCalls 0 [Ev.invoke 0 l.id s.currentUser "INITIAL_SESSION"] =
          [Ev.invoke 0 l.id s.currentUser "INITIAL_SESSION"] := by
        simp [directCalls, Ev.callDepth]
      have h1 := directCalls_append 0 [Ev.invoke 0 l.id s.currentUser "INITIAL_SESSION"] inner
      rw [h0, directCalls_body hinner] at h1
      simpa [getCurrentUser] using h1
    · show ∀ e ∈ newEvents s (onAuthStateChange 0 l s).1, _
      rw [newEvents_of_append hlog]
      intro e he d id u ev heq
      subst heq
      have := hext _ he
      simp only [BodyOnly] at this
      exact ⟨this.2.2, this.2.1⟩
  · intro hns
    have hquiet : ∀ t : State, Quiet s t → ∀ e ∈ newEvents s t, e.callDepth = none := by
      intro t ht
      obtain ⟨-, -, -, ext, hlog, hext⟩ := ht
      rw [newEvents_of_append hlog]
      exact hext
    cases i with
    | providerEvent event session => simp [Input.isProviderEvent] at h
    | subscribe l => exact absurd rfl (hns l)
    | unsubscribe hd =>
      intro e he
      simp [newEvents, step, Handle.call] at he
    | getCurrentUser => exact hquiet _ (quiet_refl s)
    | signUp email password userData reply => exact hquiet _ (authCall_quiet _ _ _ reply s)
    | signIn email password reply => exact hquiet _ (authCall_quiet _ _ _ reply s)
    | signOut reply => exact hquiet _ (signOut_quiet reply s)

/-- Witness for C10: a failed `signIn` on a signed-in page with one registered observer. -/
theorem only_provider_event_writes_witness :
    getCurrentUser (step
        { currentUser := .str "u", authStateListeners := [.mk 1 .done], document := [], log := [] }
        (Input.signIn (.str "a@b.c") (.str "pw") (.rejected (.str "network")))) = .str "u" ∧
    newEvents
        { currentUser := .str "u", authStateListeners := [.mk 1 .done], document := [], log := [] }
        (step
          { currentUser := .str "u", authStateListeners := [.mk 1 .done], document := [],
            log := [] }
          (Input.signIn (.str "a@b.c") (.str "pw") (.rejected (.str "network")))) =
      [Ev.providerCall "signInWithPassword"
          (.obj (.cons "email" (.str "a@b.c") (.cons "password" (.str "pw") .nil))),
        Ev.consoleError "Sign in error:" (.str "network")] :=
  ⟨(only_provider_event_writes
      (Input.signIn (.str "a@b.c") (.str "pw") (.rejected (.str "network")))
      { currentUser := .str "u", authStateListeners := [.mk 1 .done], document := [], log := [] }
      (by decide)).1, by decide⟩

/-! ## After unsubscribing -/

theorem noCall_refl {n : Nat} {s : State} (h : Clean n s) : NoCall n s s :=
  ⟨h, [], by simp, by simp⟩

theorem noCall_trans {n : Nat} {s t r : State} (h1 : NoCall n s t) (h2 : NoCall n t r) :
    NoCall n s r := by
  obtain ⟨-, e1, hl1, he1⟩ := h1
  obtain ⟨hc2, e2, hl2, he2⟩ := h2
  refine ⟨hc2, e1 ++ e2, ?_, ?_⟩
  · rw [hl2, hl1, List.append_assoc]
  · intro e he
    rcases List.mem_append.mp he with h | h
    · exact he1 e h
    · exact he2 e h

theorem noCall_emit {n : Nat} {s : State} (hc : Clean n s) (e : Ev) (h : e.invoked ≠ some n) :
    NoCall n s (s.emit e) :=
  ⟨hc, [e], rfl, by simpa using h⟩

theorem clean_handle {n : Nat} {s : State} (hc : Clean n s) (h : Handle) : Clean n (h.call s) :=
  fun x hx => hc x (List.mem_of_mem_filter hx)

theorem onAuthStateChange_fst (d id : Nat) (body : Script) (s : State) :
    (onAuthStateChange d (Listener.mk id body) s).1 =
      (runBody (d + 1) id body
        (State.emit { s with authStateListeners := s.authStateListeners ++ [Listener.mk id body] }
          (.invoke d id s.currentUser "INITIAL_SESSION"))).1 := by
  rw [onAuthStateChange]
  split <;> simp_all

mutual
theorem onAuthStateChange_noCall (n : Nat) : ∀ (l : Listener) (d : Nat) (s : State),
    Clean n s → l.subscribesId n = false → NoCall n s (onAuthStateChange d l s).1
  | .mk id body, d, s, hc, hl => by
    rw [Listener.subscribesId, Bool.or_eq_false_iff] at hl
    have hid : id ≠ n := by simpa using hl.1
    have hc1 : Clean n
        { s with authStateListeners := s.authStateListeners ++ [Listener.mk id body] } := by
      intro x hx
      rcases List.mem_append.mp hx with h | h
      · exact hc x h
      · rw [List.mem_singleton] at h
        subst h
        rw [Listener.subscribesId, Bool.or_eq_false_iff]
        exact hl
    have h1 := noCall_emit hc1 (.invoke d id s.currentUser "INITIAL_SESSION")
      (by simpa [Ev.invoked] using hid)
    have h2 := runBody_noCall n body (d + 1) id _ h1.1 hl.2
    rw [onAuthStateChange_fst]
    obtain ⟨hc3, ext, hlog, hext⟩ := noCall_trans h1 h2
    exact ⟨hc3, ext, hlog, hext⟩
theorem runBody_noCall (n : Nat) : ∀ (b : Script) (d me : Nat) (s : State),
    Clean n s → b.subscribesId n = false → NoCall n s (runBody d me b s).1
  | .done, d, me, s, hc, _ => by rw [runBody]; exact noCall_refl hc
  | .raise, d, me, s, hc, _ => by rw [runBody]; exact noCall_refl hc
  | .read rest, d, me, s, hc, hb => by
    rw [Script.subscribesId] at hb
    rw [runBody]
    have h1 := noCall_emit hc (.sawUser d me (getCurrentUser s)) (by simp [Ev.invoked])
    exact noCall_trans h1 (runBody_noCall n rest d me _ h1.1 hb)
  | .notify message type rest, d, me, s, hc, hb => by
    rw [Script.subscribesId] at hb
    rw [runBody]
    have h1 := noCall_emit hc (.notification message type) (by simp [Ev.invoked])
    exact noCall_trans h1 (runBody_noCall n rest d me _ h1.1 hb)
  | .unsubscribe h rest, d, me, s, hc, hb => by
    rw [Script.subscribesId] at hb
    rw [runBody]
    have h1 : NoCall n s (Handle.call ⟨h⟩ s) :=
      ⟨clean_handle hc ⟨h⟩, [], by simp [Handle.call], by simp⟩
    exact noCall_trans h1 (runBody_noCall n rest d me _ h1.1 hb)
  | .subscribe l rest, d, me, s, hc, hb => by
    rw [Script.subscribesId, Bool.or_eq_false_iff] at hb
    have h1 := onAuthStateChange_noCall n l d s hc hb.1
    rw [runBody]
    rcases hr : onAuthStateChange d l s with ⟨s1, c⟩
    rw [hr] at h1
    cases c with
    | returned v => exact noCall_trans h1 (runBody_noCall n rest d me s1 h1.1 hb.2)
    | threw => exact h1
end

theorem callListener_noCall (n d : Nat) (l : Listener) (user : JsVal) (event : String)
    (s : State) (hc : Clean n s) (hl : l.subscribesId n = false) :
    NoCall n s (callListener d l user event s).1 := by
  cases l with
  | mk id body =>
    rw [Listener.subscribesId, Bool.or_eq_false_iff] at hl
    have hid : id ≠ n := by simpa using hl.1
    have h1 := noCall_emit hc (.invoke d id user event) (by simpa [Ev.invoked] using hid)
    exact noCall_trans h1 (runBody_noCall n body (d + 1) id _ h1.1 hl.2)

theorem forEachListener_noCall (n : Nat) (event : String) : ∀ (ls : List Listener) (s : State),
    Clean n s → (∀ l ∈ ls, l.subscribesId n = false) → NoCall n s (forEachListener event ls s).1
  | [], s, hc, _ => by rw [forEachListener]; exact noCall_refl hc
  | l :: rest, s, hc, hls => by
    have h1 := callListener_noCall n 0 l s.currentUser event s hc
      (hls l (List.mem_cons_self l rest))
    rw [forEachListener]
    rcases hr : callListener 0 l s.currentUser event s with ⟨s1, c⟩
    rw [hr] at h1
    cases c with
    | returned v =>
      exact noCall_trans h1 (forEachListener_noCall n event rest s1 h1.1
        (fun x hx => hls x (List.mem_cons_of_mem l hx)))
    | threw => exact h1

theorem onProviderEvent_noCall (n : Nat) (event : String) (session : JsVal) (s : State)
    (hc : Clean n s) : NoCall n s (onProviderEvent event session s).1 := by
  have h1 : NoCall n s (forEachListener event s.authStateListeners (afterWrite session s)).1 :=
    forEachListener_noCall n event s.authStateListeners (afterWrite session s) hc hc
  cases hcomp : (onProviderEvent event session s).2 with
  | threw =>
    rw [onProviderEvent_threw_state event session s hcomp]
    exact h1
  | returned v =>
    rw [onProviderEvent_returned_state event session s hcomp]
    obtain ⟨-, hls, ui, hlog, hui⟩ :=
      updateAuthUI_frame (forEachListener event s.authStateListeners (afterWrite session s)).1
    refine noCall_trans h1 ⟨?_, ui, hlog, ?_⟩
    · intro x hx
      rw [hls] at hx
      exact h1.1 x hx
    · intro e he
      obtain ⟨r, rfl⟩ := hui e he
      simp [Ev.invoked]

theorem noCall_of_quiet {n : Nat} {s t : State} (hc : Clean n s) (h : Quiet s t) :
    NoCall n s t := by
  obtain ⟨-, hls, -, ext, hlog, hext⟩ := h
  refine ⟨fun x hx => hc x (hls ▸ hx), ext, hlog, ?_⟩
  intro e he
  have := hext e he
  cases e <;> simp [Ev.callDepth, Ev.invoked] at this ⊢

theorem step_noCall (n : Nat) (s : State) (i : Input) (hc : Clean n s)
    (hi : i.subscribesId n = false) : NoCall n s (step s i) := by
  cases i with
  | providerEvent event session => exact onProviderEvent_noCall n event session s hc
  | subscribe l => exact onAuthStateChange_noCall n l 0 s hc hi
  | unsubscribe hd => exact ⟨clean_handle hc hd, [], by simp [step, Handle.call], by simp⟩
  | getCurrentUser => exact noCall_refl hc
  | signUp email password userData reply =>
    exact noCall_of_quiet hc (authCall_quiet _ _ _ reply s)
  | signIn email password reply => exact noCall_of_quiet hc (authCall_quiet _ _ _ reply s)
  | signOut reply => exact noCall_of_quiet hc (signOut_quiet reply s)

theorem run_noCall (n : Nat) : ∀ (inputs : List Input) (s : State),
    Clean n s → (∀ i ∈ inputs, i.subscribesId n = false) → NoCall n s (run inputs s)
  | [], s, hc, _ => noCall_refl hc
  | i :: rest, s, hc, h => by
    have h1 := step_noCall n s i hc (h i (List.mem_cons_self i rest))
    have h2 := run_noCall n rest (step s i) h1.1 (fun j hj => h j (List.mem_cons_of_mem i hj))
    exact noCall_trans h1 h2

theorem handle_of_returned (d : Nat) (l : Listener) (s : State) (h : Handle)
    (hsub : (onAuthStateChange d l s).2 = .returned h) : h = ⟨l.id⟩ := by
  cases l with
  | mk id body =>
    rw [onAuthStateChange] at hsub
    split at hsub
    · simp at hsub
      rw [← hsub]; rfl
    · simp at hsub

theorem reached_filter (p : Listener → Bool) : ∀ (ls : List Listener),
    ∃ more, reached (ls.filter p) = (reached ls).filter p ++ more
  | [] => ⟨[], by simp [reached]⟩
  | l :: rest => by
    obtain ⟨more, ih⟩ := reached_filter p rest
    by_cases hp : p l = true
    · by_cases ht : l.throws = true
      · exact ⟨[], by simp [reached, hp, ht]⟩
      · exact ⟨more, by simp [reached, hp, ht, ih]⟩
    · by_cases ht : l.throws = true
      · exact ⟨reached (rest.filter p), by simp [reached, hp, ht]⟩
      · exact ⟨more, by simp [reached, hp, ht, ih]⟩

/-- Counterexample to C6 as stated: `obs1`, `obs2` and `obs3` are registered and `obs2`
throws when it is called. After the handle that `onAuthStateChange(obs1)` returned has been
called, `obs3` is still registered, but `SIGNED_IN` calls `obs2` only: the error of `obs2` ends
the fan-out before `obs3`. -/
theorem unsubscribed_observer_counterexample :
    (onAuthStateChange 0 (.mk 1 .done) (State.init [])).2 = .returned ⟨1⟩ ∧
    (Handle.call ⟨1⟩
      { currentUser := .null,
        authStateListeners := [.mk 1 .done, .mk 2 .raise, .mk 3 .done],
        document := [], log := [] }).authStateListeners =
      [Listener.mk 2 .raise, Listener.mk 3 .done] ∧
    directCalls 0 (newEvents
      (Handle.call ⟨1⟩
        { currentUser := .null,
          authStateListeners := [.mk 1 .done, .mk 2 .raise, .mk 3 .done],
          document := [], log := [] })
      (onProviderEvent "SIGNED_IN" .null
        (Handle.call ⟨1⟩
          { currentUser := .null,
            authStateListeners := [.mk 1 .done, .mk 2 .raise, .mk 3 .done],
            document := [], log := [] })).1) = [Ev.invoke 0 2 .null "SIGNED_IN"] ∧
    ¬ ∃ e ∈ newEvents
      (Handle.call ⟨1⟩
        { currentUser := .null,
          authStateListeners := [.mk 1 .done, .mk 2 .raise, .mk 3 .done],
          document := [], log := [] })
      (onProviderEvent "SIGNED_IN" .null
        (Handle.call ⟨1⟩
          { currentUser := .null,
            authStateListeners := [.mk 1 .done, .mk 2 .raise, .mk 3 .done],
            document := [], log := [] })).1, e.invoked = some 3 := by
  decide

/-- C6, amended: let `h` be the handle that `onAuthStateChange(obs)` returned, called in any
later state `t`. After the call, as long as `obs` is not subscribed again (neither by page code
nor by a registered callback), no later call into the module (provider events included) calls
`obs`, at any depth. Every other registered observer stays registered, in the original order.
The calls made by a provider event that follows are those of the remaining observers, in their
original order, up to and including the first one that throws: they begin with the calls, in
the same order, of every other observer that the event would have called had `obs` stayed
registered, and when no observer throws they are the calls of all other registered
observers. -/
theorem unsubscribed_observer_not_invoked (obs : Listener) (s0 t : State) (h : Handle)
    (later : List Input) (event : String) (session : JsVal)
    (hsub : (onAuthStateChange 0 obs s0).2 = .returned h)
    (hothers : ∀ x ∈ t.authStateListeners, x.id ≠ obs.id → x.body.subscribesId obs.id = false)
    (hlater : ∀ i ∈ later, i.subscribesId obs.id = false) :
    (∀ e ∈ newEvents (h.call t) (run later (h.call t)), e.invoked ≠ some obs.id) ∧
    directCalls 0 (newEvents (h.call t) (onProviderEvent event session (h.call t)).1) =
      (reached (t.authStateListeners.filter (fun l => l.id != obs.id))).map
        (fanOutCall (sessionUser session) event) ∧
    (∃ more, directCalls 0 (newEvents (h.call t) (onProviderEvent event session (h.call t)).1) =
      ((reached t.authStateListeners).filter (fun l => l.id != obs.id)).map
        (fanOutCall (sessionUser session) event) ++ more) ∧
    ((∀ l ∈ t.authStateListeners, l.throws = false) →
      directCalls 0 (newEvents (h.call t) (onProviderEvent event session (h.call t)).1) =
        (t.authStateListeners.filter (fun l => l.id != obs.id)).map
          (fanOutCall (sessionUser session) event)) ∧
    (h.call t).authStateListeners =
      t.authStateListeners.filter (fun l => l.id != obs.id) := by
  have hh := handle_of_returned 0 obs s0 h hsub
  subst hh
  have hlist : (Handle.call ⟨obs.id⟩ t).authStateListeners =
      t.authStateListeners.filter (fun l => l.id != obs.id) := rfl
  have hclean : Clean obs.id (Handle.call ⟨obs.id⟩ t) := by
    intro x hx
    rw [hlist, List.mem_filter] at hx
    have hid : x.id ≠ obs.id := by simpa using hx.2
    have hbody := hothers x hx.1 hid
    cases x with
    | mk id body =>
      rw [Listener.subscribesId, Bool.or_eq_false_iff]
      exact ⟨by simpa [Listener.id] using hid, hbody⟩
  have hcalls := onProviderEvent_directCalls event session (Handle.call ⟨obs.id⟩ t)
  rw [hlist] at hcalls
  refine ⟨?_, hcalls, ?_, ?_, hlist⟩
  · obtain ⟨-, ext, hlog, hext⟩ := run_noCall obs.id later _ hclean hlater
    rw [newEvents_of_append hlog]
    exact hext
  · obtain ⟨more, hmore⟩ := reached_filter (fun l => l.id != obs.id) t.authStateListeners
    refine ⟨more.map (fanOutCall (sessionUser session) event), ?_⟩
    rw [hcalls, hmore, List.map_append]
  · intro hall
    rw [hcalls, reached_of_no_throw]
    intro l hl
    exact hall l (List.mem_of_mem_filter hl)

/-- Witness for C6: the scenario of the specification. `obs1` is unsubscribed while `obs2` and
`obs3` stay registered; `SIGNED_IN` then calls `obs2` and `obs3`, in that order, and not
`obs1`. -/
theorem unsubscribed_observer_not_invoked_witness :
    directCalls 0 (newEvents
      (Handle.call ⟨1⟩
        { currentUser := .null,
          authStateListeners := [.mk 1 .done, .mk 2 (.read .done), .mk 3 .done],
          document := [], log := [] })
      (onProviderEvent "SIGNED_IN" (.obj (.cons "user" (.str "u1") .nil))
        (Handle.call ⟨1⟩
          { currentUser := .null,
            authStateListeners := [.mk 1 .done, .mk 2 (.read .done), .mk 3 .done],
            document := [], log := [] })).1) =
      [Ev.invoke 0 2 (.str "u1") "SIGNED_IN", Ev.invoke 0 3 (.str "u1") "SIGNED_IN"] :=
  (unsubscribed_observer_not_invoked (.mk 1 .done) (State.init [])
    { currentUser := .null,
      authStateListeners := [.mk 1 .done, .mk 2 (.read .done), .mk 3 .done],
      document := [], log := [] }
    ⟨1⟩ [Input.providerEvent "SIGNED_OUT" .null, Input.getCurrentUser] "SIGNED_IN"
    (.obj (.cons "user" (.str "u1") .nil)) (by decide) (by decide) (by decide)).2.1

/-! ## The auth wrappers -/

theorem authCall_result (op label : String) (args : JsVal) (reply : ProviderReply) (s : State) :
    (authCall op label args reply s).2 =
      match reply with
      | .rejected e => dataError .null e
      | .resolved v =>
        if v.nullish = true then dataError .null (destructureError "data" v)
        else if (v.prop "error").truthy = true then dataError .null (v.prop "error")
        else dataError (v.prop "data") .null := by
  unfold authCall
  cases reply with
  | resolved value =>
    by_cases h1 : value.nullish = true
    · simp [h1]
    · by_cases h2 : (value.prop "error").truthy = true
      · simp [h1, h2]
      · simp [h1, h2]
  | rejected error => rfl

theorem signOut_result (reply : ProviderReply) (s : State) :
    (signOut reply s).2 =
      match reply with
      | .rejected e => .obj (.cons "error" e .nil)
      | .resolved v =>
        if v.nullish = true then .obj (.cons "error" (destructureError "error" v) .nil)
        else if (v.prop "error").truthy = true then .obj (.cons "error" (v.prop "error") .nil)
        else .obj (.cons "error" .null .nil) := by
  unfold signOut
  cases reply with
  | resolved value =>
    by_cases h1 : value.nullish = true
    · simp [h1]
    · by_cases h2 : (value.prop "error").truthy = true
      · simp [h1, h2]
      · simp [h1, h2]
  | rejected error => rfl

/-- C11: `signIn`, `signUp` and `signOut` always return a result object and never throw (they are
total: the `catch` block turns everything thrown in the `try` block into a result). When the
provider call rejects with `e`, or resolves to an object whose `error` is truthy, `signIn` and
`signUp` return `{data: null, error}` and `signOut` returns `{error}` with that error; when it
resolves to an object without a truthy `error`, `signIn` and `signUp` return its `data` with
`error: null` and `signOut` returns `{error: null}`. -/
theorem auth_wrappers_return_result (email password userData : JsVal) (reply : ProviderReply)
    (s : State) :
    (∀ e, reply = .rejected e →
      (signIn email password reply s).2 = dataError .null e ∧
      (signUp email password userData reply s).2 = dataError .null e ∧
      (signOut reply s).2 = .obj (.cons "error" e .nil)) ∧
    (∀ v, reply = .resolved v → v.nullish = false → (v.prop "error").truthy = true →
      (signIn email password reply s).2 = dataError .null (v.prop "error") ∧
      (signUp email password userData reply s).2 = dataError .null (v.prop "error") ∧
      (signOut reply s).2 = .obj (.cons "error" (v.prop "error") .nil)) ∧
    (∀ v, reply = .resolved v → v.nullish = false → (v.prop "error").truthy = false →
      (signIn email password reply s).2 = dataError (v.prop "data") .null ∧
      (signUp email password userData reply s).2 = dataError (v.prop "data") .null ∧
      (signOut reply s).2 = .obj (.cons "error" .null .nil)) ∧
    (∃ data error, (signIn email password reply s).2 = dataError data error) ∧
    (∃ data error, (signUp email password userData reply s).2 = dataError data error) ∧
    (∃ error, (signOut reply s).2 = .obj (.cons "error" error .nil)) := by
  have hin := authCall_result "signInWithPassword" "Sign in error:"
    (.obj (.cons "email" email (.cons "password" password .nil))) reply s
  have hup := authCall_result "signUp" "Sign up error:"
    (.obj (.cons "email" email (.cons "password" password
      (.cons "options"
        (.obj (.cons "data" (if userData = .undefined then .obj .nil else userData) .nil))
        .nil)))) reply s
  have hout := signOut_result reply s
  refine ⟨?_, ?_, ?_, ?_, ?_, ?_⟩
  · intro e he
    subst he
    exact ⟨hin, hup, hout⟩
  · intro v hv h1 h2
    subst hv
    simp only [h1, h2, if_true] at hin hup hout
    exact ⟨by simpa using hin, by simpa using hup, by simpa using hout⟩
  · intro v hv h1 h2
    subst hv
    simp only [h1, h2] at hin hup hout
    exact ⟨by simpa using hin, by simpa using hup, by simpa using hout⟩
  · rw [signIn, hin]
    cases reply with
    | rejected e => exact ⟨_, _, rfl⟩
    | resolved v =>
      by_cases h1 : v.nullish = true
      · exact ⟨.null, destructureError "data" v, by simp [h1]⟩
      · by_cases h2 : (v.prop "error").truthy = true
        · exact ⟨.null, v.prop "error", by simp [h1, h2]⟩
        · exact ⟨v.prop "data", .null, by simp [h1, h2]⟩
  · rw [signUp, hup]
    cases reply with
    | rejected e => exact ⟨_, _, rfl⟩
    | resolved v =>
      by_cases h1 : v.nullish = true
      · exact ⟨.null, destructureError "data" v, by simp [h1]⟩
      · by_cases h2 : (v.prop "error").truthy = true
        · exact ⟨.null, v.prop "error", by simp [h1, h2]⟩
        · exact ⟨v.prop "data", .null, by simp [h1, h2]⟩
  · rw [hout]
    cases reply with
    | rejected e => exact ⟨_, rfl⟩
    | resolved v =>
      by_cases h1 : v.nullish = true
      · exact ⟨destructureError "error" v, by simp [h1]⟩
      · by_cases h2 : (v.prop "error").truthy = true
        · exact ⟨v.prop "error", by simp [h1, h2]⟩
        · exact ⟨.null, by simp [h1, h2]⟩

/-- Witness for C11: bad credentials. The provider resolves to
`{data: null, error: {message: "Invalid login credentials"}}`; `signIn` returns
`{data: null, error: {message: "Invalid login credentials"}}`. -/
theorem auth_wrappers_return_result_witness :
    (signIn (.str "a@b.c") (.str "pw")
      (.resolved (.obj (.cons "data" .null (.cons "error"
        (.obj (.cons "message" (.str "Invalid login credentials") .nil)) .nil))))
      (State.init [])).2 =
      dataError .null (.obj (.cons "message" (.str "Invalid login credentials") .nil)) :=
  ((auth_wrappers_return_result (.str "a@b.c") (.str "pw") .undefined
    (.resolved (.obj (.cons "data" .null (.cons "error"
      (.obj (.cons "message" (.str "Invalid login credentials") .nil)) .nil))))
    (State.init [])).2.1 _ rfl (by decide) (by decide)).1

theorem authCall_log (op label : String) (args : JsVal) (reply : ProviderReply) (s : State) :
    ∃ tail, (authCall op label args reply s).1.log = s.log ++ Ev.providerCall op args :: tail ∧
      ∀ e ∈ tail, ∃ l x, e = Ev.consoleError l x := by
  unfold authCall
  cases reply with
  | resolved value =>
    by_cases h1 : value.nullish = true
    · exact ⟨[.consoleError label (destructureError "data" value)],
        by simp [h1, State.emit], by simp⟩
    · by_cases h2 : (value.prop "error").truthy = true
      · exact ⟨[.consoleError label (value.prop "error")], by simp [h1, h2, State.emit], by simp⟩
      · exact ⟨[], by simp [h1, h2, State.emit], by simp⟩
  | rejected error => exact ⟨[.consoleError label error], by simp [State.emit], by simp⟩

theorem signOut_log (reply : ProviderReply) (s : State) :
    ∃ tail, (signOut reply s).1.log = s.log ++ Ev.providerCall "signOut" .undefined :: tail ∧
      ∀ e ∈ tail, ∃ l x, e = Ev.consoleError l x := by
  unfold signOut
  cases reply with
  | resolved value =>
    by_cases h1 : value.nullish = true
    · exact ⟨[.consoleError "Sign out error:" (destructureError "error" value)],
        by simp [h1, State.emit], by simp⟩
    · by_cases h2 : (value.prop "error").truthy = true
      · exact ⟨[.consoleError "Sign out error:" (value.prop "error")],
          by simp [h1, h2, State.emit], by simp⟩
      · exact ⟨[], by simp [h1, h2, State.emit], by simp⟩
  | rejected error =>
    exact ⟨[.consoleError "Sign out error:" error], by simp [State.emit], by simp⟩

theorem providerCallsOf_cons_errors (c : Ev) (hc : ∃ op args, c = Ev.providerCall op args)
    (tail : List Ev) (h : ∀ e ∈ tail, ∃ l x, e = Ev.consoleError l x) :
    providerCallsOf (c :: tail) = [c] := by
  obtain ⟨op, args, rfl⟩ := hc
  have htail : providerCallsOf tail = [] := by
    rw [providerCallsOf, List.filter_eq_nil_iff]
    intro e he
    obtain ⟨l, x, rfl⟩ := h e he
    simp
  simp only [providerCallsOf] at htail ⊢
  simp [List.filter_cons, htail]

/-- C15: no retries. For every state, every argument and every reply of the provider (success,
returned error, or rejection), one call of `signIn`, `signUp` or `signOut` makes exactly one call
on the provider: `signInWithPassword`, `signUp` or `signOut` respectively. -/
theorem auth_wrappers_call_provider_once (email password userData : JsVal)
    (reply : ProviderReply) (s : State) :
    providerCallsOf (newEvents s (signIn email password reply s).1) =
      [Ev.providerCall "signInWithPassword"
        (.obj (.cons "email" email (.cons "password" password .nil)))] ∧
    providerCallsOf (newEvents s (signUp email password userData reply s).1) =
      [Ev.providerCall "signUp"
        (.obj (.cons "email" email (.cons "password" password
          (.cons "options"
            (.obj (.cons "data" (if userData = .undefined then .obj .nil else userData) .nil))
            .nil))))] ∧
    providerCallsOf (newEvents s (signOut reply s).1) =
      [Ev.providerCall "signOut" .undefined] := by
  refine ⟨?_, ?_, ?_⟩
  · obtain ⟨tail, hlog, htail⟩ := authCall_log "signInWithPassword" "Sign in error:"
      (.obj (.cons "email" email (.cons "password" password .nil))) reply s
    rw [signIn, newEvents_of_append hlog]
    exact providerCallsOf_cons_errors _ ⟨_, _, rfl⟩ tail htail
  · obtain ⟨tail, hlog, htail⟩ := authCall_log "signUp" "Sign up error:"
      (.obj (.cons "email" email (.cons "password" password
        (.cons "options"
          (.obj (.cons "data" (if userData = .undefined then .obj .nil else userData) .nil))
          .nil)))) reply s
    rw [signUp, newEvents_of_append hlog]
    exact providerCallsOf_cons_errors _ ⟨_, _, rfl⟩ tail htail
  · obtain ⟨tail, hlog, htail⟩ := signOut_log reply s
    rw [newEvents_of_append hlog]
    exact providerCallsOf_cons_errors _ ⟨_, _, rfl⟩ tail htail

/-! ## Authentication gates -/

/-- C12: the data-layer gate. Whenever `getCurrentUser()` is `null`, `updateProfile`,
`addEmergencyContact`, `createEmergencyAlert`, `createCommunityPost` and `addComment` return
`{data: null, error}` and `getEmergencyContacts` returns `{data: [], error}`, with `error` the
value of `new Error('Not authenticated')`, and the state is as before: no request is issued and
nothing is logged, whatever the arguments and whatever the backend would have replied. -/
theorem data_layer_gate (s : State) (hnull : getCurrentUser s = JsVal.null)
    (payload postId content : JsVal) (now : String) (reply : ProviderReply) :
    updateProfile payload now reply s = (s, dataError .null (newError "Not authenticated")) ∧
    addEmergencyContact payload reply s =
      (s, dataError .null (newError "Not authenticated")) ∧
    createEmergencyAlert payload reply s =
      (s, dataError .null (newError "Not authenticated")) ∧
    createCommunityPost payload reply s =
      (s, dataError .null (newError "Not authenticated")) ∧
    addComment postId content reply s = (s, dataError .null (newError "Not authenticated")) ∧
    getEmergencyContacts reply s = (s, dataError emptyArray (newError "Not authenticated")) := by
  have h : s.currentUser.truthy = false := by
    rw [show s.currentUser = JsVal.null from hnull]; rfl
  simp [updateProfile, addEmergencyContact, createEmergencyAlert, createCommunityPost,
    addComment, getEmergencyContacts, h]

/-- Witness for C12: right after the module is loaded nobody is signed in; a post is refused
and the log stays empty. -/
theorem data_layer_gate_witness :
    createCommunityPost (.obj (.cons "title" (.str "hello") .nil))
      (.resolved (.obj (.cons "data" (.str "row") .nil))) (State.init []) =
      (State.init [], dataError .null (newError "Not authenticated")) :=
  (data_layer_gate (State.init []) rfl (.obj (.cons "title" (.str "hello") .nil)) .null .null
    "" (.resolved (.obj (.cons "data" (.str "row") .nil)))).2.2.2.1

/-- C13: the UI gate. Whenever `getCurrentUser()` is `null`, `showCreatePostModal`,
`showCommentForm`, `handleSOSClick` and `handleEmergencyType` show one notification that asks to
log in and do nothing else: the state afterwards is the state before with that notification
logged, so nothing is appended to the page, no comment form loses the class `hidden`, no timer
is set, no position is requested and no request goes to the backend. -/
theorem ui_gate (s : State) (hnull : getCurrentUser s = JsVal.null) (hasLucide : Bool)
    (postId type : String) (geo : GeoResult) (reply : ProviderReply)
    (confirmCall hasModal : Bool) :
    showCreatePostModal hasLucide s =
      s.emit (.notification "Please log in to create posts" "warning") ∧
    showCommentForm postId s = s.emit (.notification "Please log in to comment" "warning") ∧
    handleSOSClick s =
      (s.emit (.notification "Please log in to use emergency services" "warning"),
        .returned ()) ∧
    handleEmergencyType type geo reply confirmCall hasModal s =
      (s.emit (.notification "Please log in to create emergency alerts" "error"),
        .returned ()) := by
  have h : (getCurrentUser s).truthy = false := by rw [hnull]; rfl
  simp [showCreatePostModal, showCommentForm, handleSOSClick, handleEmergencyType, h]

/-- Example for C13: what the gate keeps from happening. For a signed-in user
`showCreatePostModal` appends the modal, and `handleEmergencyType` asks for the position and
inserts the alert. -/
theorem ui_gate_open_example :
    newEvents
      { currentUser := .obj (.cons "id" (.str "u1") .nil), authStateListeners := [],
        document := [], log := [] }
      (showCreatePostModal false
        { currentUser := .obj (.cons "id" (.str "u1") .nil), authStateListeners := [],
          document := [], log := [] }) =
      [.ui "appendChild" (.str "createPostModal"), .ui "addEventListener" (.str "submit"),
       .ui "addEventListener" (.str "click")] ∧
    newEvents
      { currentUser := .obj (.cons "id" (.str "u1") .nil), authStateListeners := [],
        document := [], log := [] }
      (handleEmergencyType "fire" (.failed (.str "denied"))
        (.resolved (.obj (.cons "data" (.str "row") (.cons "error" .null .nil)))) false false
        { currentUser := .obj (.cons "id" (.str "u1") .nil), authStateListeners := [],
          document := [], log := [] }).1 =
      [.ui "getCurrentPosition" .undefined, .consoleError "Geolocation error:" (.str "denied"),
       .request
        { table := "emergency_alerts", verb := "insert",
          payload := .obj (.cons "alert_type" (.str "fire")
            (.cons "message" (.str "Emergency alert: fire")
            (.cons "location_lat" .null (.cons "location_lng" .null
            (.cons "address" (.str "") (.cons "user_id" (.str "u1") .nil)))))),
          eqColumn := "", eqValue := .undefined },
       .notification "Emergency alert created! Help is on the way." "success",
       .ui "confirm" (.str "Do you want to call 911 now?")] := by
  decide

/-- Witness for C13: a signed-out visitor presses the SOS button on a page that has one. -/
theorem ui_gate_witness :
    handleSOSClick
      { currentUser := .null, authStateListeners := [],
        document := [("sosBtn", ⟨[], "SOS"⟩)], log := [] } =
      ({ currentUser := .null, authStateListeners := [],
         document := [("sosBtn", ⟨[], "SOS"⟩)],
         log := [.notification "Please log in to use emergency services" "warning"] },
        .returned ()) :=
  (ui_gate
    { currentUser := .null, authStateListeners := [],
      document := [("sosBtn", ⟨[], "SOS"⟩)], log := [] }
    rfl false "" "" .unsupported (.rejected .null) false false).2.2.1

/-! ## Requests to the backend -/

theorem requestsOf_append (a b : List Ev) : requestsOf (a ++ b) = requestsOf a ++ requestsOf b := by
  simp [requestsOf, List.filterMap_append]

theorem requestsOf_eq_nil {l : List Ev} (h : ∀ e ∈ l, ∀ r, e ≠ Ev.request r) :
    requestsOf l = [] := by
  rw [requestsOf, List.filterMap_eq_nil_iff]
  intro e he
  have := h e he
  cases e <;> simp at this ⊢

theorem bodyOnly_not_request {d : Nat} {u : JsVal} {e : Ev} (h : BodyOnly d u e) (r : Request) :
    e ≠ Ev.request r := by
  intro he
  subst he
  simp [BodyOnly] at h

theorem fanEv_not_request {event : String} {u : JsVal} {e : Ev} (h : FanEv event u e)
    (r : Request) : e ≠ Ev.request r := by
  rcases h with ⟨id, rfl⟩ | h
  · simp
  · exact bodyOnly_not_request h r

theorem updateAuthUI_log (t : State) :
    (updateAuthUI t).log = t.log ++
      (if t.currentUser.truthy = true ∧ (getElementById "userProfile" t.document).isSome = true
        then [Ev.request (profileRequest t.currentUser)] else []) := by
  unfold updateAuthUI
  by_cases h1 : t.currentUser.truthy = true
  · cases h2 : getElementById "userProfile" t.document with
    | none => simp [h1]
    | some e => simp [h1, updateUserProfileDisplay, State.emit, profileRequest]
  · simp [h1]

/-- Counterexample to C14 as stated: a user signs in on a page that has the element
`userProfile`; the provider's callback sends the request for the user's profile row. -/
theorem broadcaster_requests_counterexample :
    requestsOf (newEvents
      { currentUser := .null, authStateListeners := [],
        document := [("userProfile", ⟨["hidden"], ""⟩)], log := [] }
      (onProviderEvent "SIGNED_IN"
        (.obj (.cons "user" (.obj (.cons "id" (.str "u1") .nil)) .nil))
        { currentUser := .null, authStateListeners := [],
          document := [("userProfile", ⟨["hidden"], ""⟩)], log := [] }).1) =
      [{ table := "profiles", verb := "select", payload := .str "first_name, last_name",
         eqColumn := "id", eqValue := .str "u1" }] := by
  decide

/-- C14, amended: `onAuthStateChange` and `getCurrentUser` issue no request to the backend, for
every state and every callback. The provider's callback issues none while it writes the state
and notifies the observers; when it completes normally, the new user is not `null` and the page
has an element `userProfile`, its auth UI update issues exactly one request, the select of
`first_name, last_name` from `profiles` for the user's `id`; otherwise it issues none. -/
theorem broadcaster_requests (event : String) (session : JsVal) (s : State) (d : Nat)
    (l : Listener) :
    requestsOf (newEvents s (onAuthStateChange d l s).1) = [] ∧
    step s Input.getCurrentUser = s ∧
    requestsOf (newEvents s (onProviderEvent event session s).1) =
      (if (onProviderEvent event session s).2 = .returned () ∧
          (sessionUser session).truthy = true ∧
          (getElementById "userProfile" s.document).isSome = true
        then [profileRequest (sessionUser session)] else []) := by
  refine ⟨?_, rfl, ?_⟩
  · obtain ⟨-, -, ext, hlog, hext⟩ := subscribeFrame_frame (onAuthStateChange_frame l d s)
    rw [newEvents_of_append hlog]
    exact requestsOf_eq_nil (fun e he r => bodyOnly_not_request (hext e he) r)
  · obtain ⟨hu, hd, ext, hlog, hext, -⟩ :=
      forEachListener_fanOut event s.authStateListeners (afterWrite session s)
    have hu0 : (afterWrite session s).currentUser = sessionUser session := rfl
    have hd0 : (afterWrite session s).document = s.document := rfl
    have hl0 : (afterWrite session s).log = s.log := rfl
    rw [hu0] at hu hext
    rw [hd0] at hd
    rw [hl0] at hlog
    have hnil : requestsOf ext = [] :=
      requestsOf_eq_nil (fun e he r => fanEv_not_request (hext e he) r)
    cases hcomp : (onProviderEvent event session s).2 with
    | threw =>
      rw [onProviderEvent_threw_state event session s hcomp, newEvents_of_append hlog, hnil]
      simp
    | returned v =>
      have hlog2 := updateAuthUI_log
        (forEachListener event s.authStateListeners (afterWrite session s)).1
      rw [hu, hd, hlog, List.append_assoc] at hlog2
      rw [onProviderEvent_returned_state event session s hcomp, newEvents_of_append hlog2,
        requestsOf_append, hnil]
      by_cases hc : (sessionUser session).truthy = true ∧
          (getElementById "userProfile" s.document).isSome = true
      · simp [hc, requestsOf]
      · have hc2 : ¬ ((sessionUser session).truthy = true ∧
            (getElementById "userProfile" s.document).isSome = true) := hc
        simp only [hc2, if_false]
        simp [requestsOf]

/-- Witness for C14, amended: on a page without the element `userProfile` a sign-in with two
observers issues no request. -/
theorem broadcaster_requests_witness :
    requestsOf (newEvents
      { currentUser := .null, authStateListeners := [.mk 1 .done, .mk 2 (.read .done)],
        document := [("loginBtn", ⟨[], "Login"⟩)], log := [] }
      (onProviderEvent "SIGNED_IN"
        (.obj (.cons "user" (.obj (.cons "id" (.str "u1") .nil)) .nil))
        { currentUser := .null, authStateListeners := [.mk 1 .done, .mk 2 (.read .done)],
          document := [("loginBtn", ⟨[], "Login"⟩)], log := [] }).1) = [] :=
  (broadcaster_requests "SIGNED_IN"
    (.obj (.cons "user" (.obj (.cons "id" (.str "u1") .nil)) .nil))
    { currentUser := .null, authStateListeners := [.mk 1 .done, .mk 2 (.read .done)],
      document := [("loginBtn", ⟨[], "Login"⟩)], log := [] } 0 (.mk 9 .done)).2.2

/-! ## Password strength -/

theorem testUppercase_iff (s : String) :
    testUppercase s = true ↔ ∃ c ∈ s.toList, 'A' ≤ c ∧ c ≤ 'Z' := by
  simp only [testUppercase, List.any_eq_true, Bool.and_eq_true, decide_eq_true_eq]
  constructor
  · rintro ⟨c, hc, h1, h2⟩
    refine ⟨c, hc, ?_, ?_⟩
    · show (65 : Nat) ≤ c.toNat
      exact h1
    · show c.toNat ≤ (90 : Nat)
      exact h2
  · rintro ⟨c, hc, h1, h2⟩
    exact ⟨c, hc, h1, h2⟩

theorem testDigit_iff (s : String) :
    testDigit s = true ↔ ∃ c ∈ s.toList, '0' ≤ c ∧ c ≤ '9' := by
  simp only [testDigit, List.any_eq_true, Bool.and_eq_true, decide_eq_true_eq]
  constructor
  · rintro ⟨c, hc, h1, h2⟩
    refine ⟨c, hc, ?_, ?_⟩
    · show (48 : Nat) ≤ c.toNat
      exact h1
    · show c.toNat ≤ (57 : Nat)
      exact h2
  · rintro ⟨c, hc, h1, h2⟩
    exact ⟨c, hc, h1, h2⟩

theorem codeUnits_of_bmp : ∀ (l : List Char), (∀ c ∈ l, c.toNat < 65536) →
    (l.map (fun c => if c.toNat < 65536 then 1 else 2)).sum = l.length
  | [], _ => rfl
  | a :: rest, h => by
    have ha := h a (List.mem_cons_self a rest)
    have ih := codeUnits_of_bmp rest (fun c hc => h c (List.mem_cons_of_mem a hc))
    simp only [List.map_cons, List.sum_cons, List.length_cons, ha, if_true, ih]
    omega

theorem jsLength_of_bmp (s : String) (h : ∀ c ∈ s.toList, c.toNat < 65536) :
    jsLength s = s.length :=
  codeUnits_of_bmp s.toList h

/-- Counterexample to C16 as stated: the password `A1` followed by three emoji has five
characters, an uppercase letter and a digit. Each emoji is two UTF-16 code units, so
`password.length` is 8 and `isPasswordStrong` returns `true`. -/
theorem isPasswordStrong_counterexample :
    isPasswordStrong "A1😀😀😀" = true ∧ "A1😀😀😀".length = 5 ∧
    ¬ (isPasswordStrong "A1😀😀😀" = true ↔
      8 ≤ "A1😀😀😀".length ∧ (∃ c ∈ "A1😀😀😀".toList, 'A' ≤ c ∧ c ≤ 'Z') ∧
        (∃ c ∈ "A1😀😀😀".toList, '0' ≤ c ∧ c ≤ '9')) := by
  decide

/-- C16, amended: for every string `password`, `isPasswordStrong(password)` is `true` if and
only if the password has length at least 8, contains an uppercase letter `A` to `Z`, and
contains a digit `0` to `9`. The length is the `length` of the JavaScript string, which counts
UTF-16 code units: it is the number of characters whenever every character lies in the Basic
Multilingual Plane, and a character outside it counts as two. -/
theorem isPasswordStrong_iff (password : String) :
    (isPasswordStrong password = true ↔
      8 ≤ jsLength password ∧ (∃ c ∈ password.toList, 'A' ≤ c ∧ c ≤ 'Z') ∧
        (∃ c ∈ password.toList, '0' ≤ c ∧ c ≤ '9')) ∧
    ((∀ c ∈ password.toList, c.toNat < 65536) →
      (isPasswordStrong password = true ↔
        8 ≤ password.length ∧ (∃ c ∈ password.toList, 'A' ≤ c ∧ c ≤ 'Z') ∧
          (∃ c ∈ password.toList, '0' ≤ c ∧ c ≤ '9'))) := by
  have h : isPasswordStrong password = true ↔
      8 ≤ jsLength password ∧ (∃ c ∈ password.toList, 'A' ≤ c ∧ c ≤ 'Z') ∧
        (∃ c ∈ password.toList, '0' ≤ c ∧ c ≤ '9') := by
    rw [isPasswordStrong, Bool.and_eq_true, Bool.and_eq_true, decide_eq_true_eq,
      testUppercase_iff, testDigit_iff, and_assoc]
  refine ⟨h, fun hbmp => ?_⟩
  rw [h, jsLength_of_bmp password hbmp]

/-- Witness for C16: `Passw0rd` is strong, `password1` (no uppercase letter) is not. -/
theorem isPasswordStrong_iff_witness :
    isPasswordStrong "Passw0rd" = true ∧ isPasswordStrong "password1" = false :=
  ⟨((isPasswordStrong_iff "Passw0rd").2 (by decide)).mpr (by decide), by decide⟩

/-! ## The signup form -/

theorem providerCallsOf_append (a b : List Ev) :
    providerCallsOf (a ++ b) = providerCallsOf a ++ providerCallsOf b := by
  simp [providerCallsOf]

theorem handleSignup_mismatch (form : SignupForm) (reply : ProviderReply) (s : State)
    (btn : Button) (hbtn : form.submitBtn = some btn)
    (h : form.password ≠ form.confirmPassword) :
    handleSignup form reply s =
      ((((s.emit (.ui "preventDefault" .undefined)).emit
        (.notification "Passwords do not match" "error")), some btn), .returned ()) := by
  unfold handleSignup
  rw [hbtn]
  simp only [if_pos h]

theorem handleSignup_weak (form : SignupForm) (reply : ProviderReply) (s : State)
    (btn : Button) (hbtn : form.submitBtn = some btn)
    (hsame : form.password = form.confirmPassword)
    (hweak : isPasswordStrong form.password = false) :
    handleSignup form reply s =
      ((((s.emit (.ui "preventDefault" .undefined)).emit
        (.notification "Password must be at least 8 characters with uppercase and number"
          "error")), some btn), .returned ()) := by
  unfold handleSignup
  rw [hbtn]
  simp only [if_neg (not_not.mpr hsame), hweak, Bool.not_false, if_true]

theorem emit_emit_log (t : State) (a b : Ev) : ((t.emit a).emit b).log = t.log ++ [a, b] := by
  simp [State.emit]

theorem handleSignup_accepted_log (form : SignupForm) (reply : ProviderReply) (s : State)
    (btn : Button) (hbtn : form.submitBtn = some btn)
    (hsame : form.password = form.confirmPassword)
    (hstrong : isPasswordStrong form.password = true) :
    ∃ a b, (handleSignup form reply s).1.1.log =
      (signUp (.str form.email) (.str form.password) (signupUserData form) reply
        (s.emit (.ui "preventDefault" .undefined))).1.log ++ [a, b] ∧
      providerCallsOf [a, b] = [] := by
  unfold handleSignup
  rw [hbtn]
  simp only [if_neg (not_not.mpr hsame), hstrong, Bool.not_true, Bool.false_eq_true, if_false]
  by_cases herr : ((signUp (.str form.email) (.str form.password) (signupUserData form) reply
      (s.emit (.ui "preventDefault" .undefined))).2.prop "error").truthy = true
  · simp only [herr, if_true]
    exact ⟨_, _, emit_emit_log _ _ _, by simp [providerCallsOf]⟩
  · simp only [herr, if_false]
    exact ⟨_, _, emit_emit_log _ _ _, by simp [providerCallsOf]⟩

theorem handleSignup_accepted_calls (form : SignupForm) (reply : ProviderReply) (s : State)
    (btn : Button) (hbtn : form.submitBtn = some btn)
    (hsame : form.password = form.confirmPassword)
    (hstrong : isPasswordStrong form.password = true) :
    providerCallsOf (newEvents s (handleSignup form reply s).1.1) =
      [Ev.providerCall "signUp"
        (.obj (.cons "email" (.str form.email) (.cons "password" (.str form.password)
          (.cons "options" (.obj (.cons "data" (signupUserData form) .nil)) .nil))))] := by
  obtain ⟨a, b, hlog, hab⟩ := handleSignup_accepted_log form reply s btn hbtn hsame hstrong
  have hdata : (if signupUserData form = JsVal.undefined then JsVal.obj .nil
      else signupUserData form) = signupUserData form := by
    simp [signupUserData]
  obtain ⟨tail, hlog2, htail⟩ := authCall_log "signUp" "Sign up error:"
    (.obj (.cons "email" (.str form.email) (.cons "password" (.str form.password)
      (.cons "options" (.obj (.cons "data" (signupUserData form) .nil)) .nil))))
    reply (s.emit (.ui "preventDefault" .undefined))
  rw [signUp, hdata, hlog2] at hlog
  have hfinal : (handleSignup form reply s).1.1.log = s.log ++
      ([Ev.ui "preventDefault" .undefined] ++
        (Ev.providerCall "signUp"
          (.obj (.cons "email" (.str form.email) (.cons "password" (.str form.password)
            (.cons "options" (.obj (.cons "data" (signupUserData form) .nil)) .nil)))) :: tail) ++
        [a, b]) := by
    rw [hlog]; simp [State.emit]
  rw [newEvents_of_append hfinal, providerCallsOf_append, providerCallsOf_append, hab,
    providerCallsOf_cons_errors _ ⟨_, _, rfl⟩ tail htail]
  simp [providerCallsOf]

/-- C17: for every submission of the signup form, `handleSignup` calls `signUp` only if
`password` equals `confirmPassword` and `isPasswordStrong(password)` holds. For a form with a
submit button, if either check fails it shows one error notification and returns: `signUp` is
not called, and the submit button keeps its text and its enabled state; if both checks pass
`signUp` is called exactly once with the form's email, password and profile fields. -/
theorem handleSignup_validates (form : SignupForm) (reply : ProviderReply) (s : State) :
    (providerCallsOf (newEvents s (handleSignup form reply s).1.1) ≠ [] →
      form.password = form.confirmPassword ∧ isPasswordStrong form.password = true) ∧
    (∀ btn, form.submitBtn = some btn →
      (form.password ≠ form.confirmPassword ∨ isPasswordStrong form.password = false) →
      (∃ message, newEvents s (handleSignup form reply s).1.1 =
        [Ev.ui "preventDefault" .undefined, Ev.notification message "error"]) ∧
      providerCallsOf (newEvents s (handleSignup form reply s).1.1) = [] ∧
      (handleSignup form reply s).1.2 = some btn ∧
      (handleSignup form reply s).2 = .returned ()) ∧
    (∀ btn, form.submitBtn = some btn → form.password = form.confirmPassword →
      isPasswordStrong form.password = true →
      providerCallsOf (newEvents s (handleSignup form reply s).1.1) =
        [Ev.providerCall "signUp"
          (.obj (.cons "email" (.str form.email) (.cons "password" (.str form.password)
            (.cons "options" (.obj (.cons "data" (signupUserData form) .nil)) .nil))))]) := by
  have hbad : ∀ btn, form.submitBtn = some btn →
      (form.password ≠ form.confirmPassword ∨ isPasswordStrong form.password = false) →
      (∃ message, newEvents s (handleSignup form reply s).1.1 =
        [Ev.ui "preventDefault" .undefined, Ev.notification message "error"]) ∧
      providerCallsOf (newEvents s (handleSignup form reply s).1.1) = [] ∧
      (handleSignup form reply s).1.2 = some btn ∧
      (handleSignup form reply s).2 = .returned () := by
    intro btn hbtn hor
    by_cases h1 : form.password ≠ form.confirmPassword
    · rw [handleSignup_mismatch form reply s btn hbtn h1]
      have hl := emit_emit_log s (.ui "preventDefault" .undefined)
        (.notification "Passwords do not match" "error")
      refine ⟨⟨_, newEvents_of_append hl⟩, ?_, rfl, rfl⟩
      rw [newEvents_of_append hl]
      simp [providerCallsOf]
    · have hsame : form.password = form.confirmPassword := not_not.mp h1
      have hweak : isPasswordStrong form.password = false := by
        rcases hor with h | h
        · exact absurd h h1
        · exact h
      rw [handleSignup_weak form reply s btn hbtn hsame hweak]
      have hl := emit_emit_log s (.ui "preventDefault" .undefined)
        (.notification "Password must be at least 8 characters with uppercase and number"
          "error")
      refine ⟨⟨_, newEvents_of_append hl⟩, ?_, rfl, rfl⟩
      rw [newEvents_of_append hl]
      simp [providerCallsOf]
  refine ⟨?_, hbad, fun btn hbtn hsame hstrong =>
    handleSignup_accepted_calls form reply s btn hbtn hsame hstrong⟩
  intro hcalls
  cases hbtn : form.submitBtn with
  | none =>
    exfalso
    apply hcalls
    have hl : (handleSignup form reply s).1.1.log =
        s.log ++ [Ev.ui "preventDefault" .undefined] := by
      unfold handleSignup
      rw [hbtn]
      rfl
    rw [newEvents_of_append hl]
    simp [providerCallsOf]
  | some btn =>
    by_contra hnot
    apply hcalls
    refine (hbad btn hbtn ?_).2.1
    by_cases h1 : form.password = form.confirmPassword
    · right
      cases hs : isPasswordStrong form.password with
      | false => rfl
      | true => exact absurd ⟨h1, hs⟩ hnot
    · left
      exact h1

/-- Witness for C17: the confirmation differs from the password; the form shows
`Passwords do not match` and leaves the button as it was. -/
theorem handleSignup_validates_witness :
    (handleSignup
      { firstName := "A", lastName := "B", email := "a@b.c", phone := "1",
        password := "Passw0rd", confirmPassword := "Passw0rd!",
        submitBtn := some ⟨"Create Account", false⟩ }
      (.resolved (.obj (.cons "data" (.str "session") .nil))) (State.init [])).1.2 =
      some ⟨"Create Account", false⟩ :=
  ((handleSignup_validates
    { firstName := "A", lastName := "B", email := "a@b.c", phone := "1",
      password := "Passw0rd", confirmPassword := "Passw0rd!",
      submitBtn := some ⟨"Create Account", false⟩ }
    (.resolved (.obj (.cons "data" (.str "session") .nil))) (State.init [])).2.1
    ⟨"Create Account", false⟩ rfl (Or.inl (by decide))).2.2.1

/-! ## The auth UI -/

theorem getElementById_modifyElement (id target : String) (f : Element → Element) :
    ∀ (doc : List (String × Element)),
    getElementById id (modifyElement target f doc) =
      if id = target then (getElementById id doc).map f else getElementById id doc
  | [] => by simp [modifyElement, getElementById]
  | (k, e) :: rest => by
    have ih := getElementById_modifyElement id target f rest
    by_cases hk : k = target
    · by_cases hid : id = target
      · subst hk; subst hid
        simp [modifyElement, getElementById]
      · have hti : ¬ target = id := fun h => hid h.symm
        have hki : ¬ k = id := fun h => hti (hk ▸ h)
        simp only [modifyElement, if_pos hk, getElementById, if_neg hki, if_neg hid]
    · by_cases hid : id = target
      · have hki : ¬ k = id := fun h => hk (h.trans hid)
        simp only [modifyElement, if_neg hk, getElementById, if_neg hki, ih, if_pos hid]
      · by_cases hki : k = id
        · simp only [modifyElement, if_neg hk, getElementById, if_pos hki, if_neg hid]
        · simp only [modifyElement, if_neg hk, getElementById, if_neg hki, ih, if_neg hid]

theorem sessionUser_truthy_iff (session : JsVal) :
    (sessionUser session).truthy = true ↔ sessionUser session ≠ JsVal.null := by
  unfold sessionUser JsVal.or
  by_cases h : (session.optProp "user").truthy = true
  · rw [if_pos h]
    refine ⟨fun _ hn => ?_, fun _ => h⟩
    rw [hn] at h
    simp [JsVal.truthy] at h
  · rw [if_neg h]
    simp [JsVal.truthy]

theorem hidden_mem_addClass (e : Element) : "hidden" ∈ (Element.addClass "hidden" e).classList := by
  unfold Element.addClass
  by_cases h : "hidden" ∈ e.classList
  · simp [h]
  · simp [h]

theorem hidden_not_mem_removeClass (e : Element) :
    "hidden" ∉ (Element.removeClass "hidden" e).classList := by
  simp [Element.removeClass]

theorem updateAuthUI_document (t : State) :
    (updateAuthUI t).document =
      if t.currentUser.truthy = true then
        forEachPresent (Element.removeClass "hidden") loggedInElements
          (forEachPresent (Element.addClass "hidden") authButtons t.document)
      else
        forEachPresent (Element.addClass "hidden") loggedInElements
          (forEachPresent (Element.removeClass "hidden") authButtons t.document) := by
  unfold updateAuthUI
  by_cases h1 : t.currentUser.truthy = true
  · cases h2 : getElementById "userProfile" t.document with
    | none => simp [h1]
    | some e => simp [h1, updateUserProfileDisplay, State.emit]
  · simp [h1]

theorem getElementById_authUI (id : String) (f g : Element → Element)
    (doc : List (String × Element)) :
    getElementById id
      (forEachPresent g loggedInElements (forEachPresent f authButtons doc)) =
      if id ∈ authButtons then (getElementById id doc).map f
      else if id ∈ loggedInElements then (getElementById id doc).map g
      else getElementById id doc := by
  simp only [forEachPresent, authButtons, loggedInElements, List.foldl_cons, List.foldl_nil,
    getElementById_modifyElement]
  by_cases h1 : id = "loginBtn"
  · subst h1; simp
  by_cases h2 : id = "signupBtn"
  · subst h2; simp
  by_cases h3 : id = "mobileLoginBtn"
  · subst h3; simp
  by_cases h4 : id = "mobileSignupBtn"
  · subst h4; simp
  by_cases h5 : id = "logoutBtn"
  · subst h5; simp
  by_cases h6 : id = "userProfile"
  · subst h6; simp
  simp [h1, h2, h3, h4, h5, h6]

theorem onProviderEvent_returned_document (event : String) (session : JsVal) (s : State)
    (h : (onProviderEvent event session s).2 = .returned ()) :
    (onProviderEvent event session s).1.currentUser = sessionUser session ∧
    (onProviderEvent event session s).1.document =
      if (sessionUser session).truthy = true then
        forEachPresent (Element.removeClass "hidden") loggedInElements
          (forEachPresent (Element.addClass "hidden") authButtons s.document)
      else
        forEachPresent (Element.addClass "hidden") loggedInElements
          (forEachPresent (Element.removeClass "hidden") authButtons s.document) := by
  obtain ⟨hu, hd, -⟩ := forEachListener_fanOut event s.authStateListeners (afterWrite session s)
  have hu0 : (afterWrite session s).currentUser = sessionUser session := rfl
  have hd0 : (afterWrite session s).document = s.document := rfl
  rw [hu0] at hu
  rw [hd0] at hd
  refine ⟨(onProviderEvent_spec event session s).1, ?_⟩
  rw [onProviderEvent_returned_state event session s h, updateAuthUI_document, hu, hd]

/-- C18: the provider's callback completes normally exactly when no registered observer throws,
whatever elements the page has. After it has completed, for any event: each of `loginBtn`,
`signupBtn`, `mobileLoginBtn`, `mobileSignupBtn` that the page has carries the class `hidden` if
and only if a user is signed in (`getCurrentUser()` is not `null`); each of `logoutBtn`,
`userProfile` that the page has carries it if and only if no user is signed in; and the page has
the same elements as before, the absent ones being skipped. -/
theorem auth_ui_after_event (event : String) (session : JsVal) (s : State) :
    ((onProviderEvent event session s).2 = .returned () ↔
      ∀ l ∈ s.authStateListeners, l.throws = false) ∧
    ((onProviderEvent event session s).2 = .returned () →
      (∀ id ∈ authButtons, ∀ e,
        getElementById id (onProviderEvent event session s).1.document = some e →
        ("hidden" ∈ e.classList ↔ getCurrentUser (onProviderEvent event session s).1 ≠ .null)) ∧
      (∀ id ∈ loggedInElements, ∀ e,
        getElementById id (onProviderEvent event session s).1.document = some e →
        ("hidden" ∈ e.classList ↔ getCurrentUser (onProviderEvent event session s).1 = .null)) ∧
      (∀ id, (getElementById id (onProviderEvent event session s).1.document).isSome =
        (getElementById id s.document).isSome)) := by
  refine ⟨?_, fun hret => ?_⟩
  · have hiff := onProviderEvent_threw_iff event session s
    constructor
    · intro hret l hl
      cases hthrow : l.throws with
      | false => rfl
      | true =>
        have := hiff.mpr ⟨l, hl, hthrow⟩
        rw [hret] at this
        exact absurd this (by simp)
    · intro hall
      cases hc : (onProviderEvent event session s).2 with
      | returned v => rfl
      | threw =>
        obtain ⟨l, hl1, hl2⟩ := hiff.mp hc
        rw [hall l hl1] at hl2
        simp at hl2
  · obtain ⟨hu, hd⟩ := onProviderEvent_returned_document event session s hret
    have htr := sessionUser_truthy_iff session
    by_cases ht : (sessionUser session).truthy = true
    · have hne : sessionUser session ≠ JsVal.null := htr.mp ht
      rw [if_pos ht] at hd
      rw [getCurrentUser, hu, hd]
      refine ⟨?_, ?_, ?_⟩
      · intro id hid e he
        rw [getElementById_authUI, if_pos hid] at he
        cases h0 : getElementById id s.document with
        | none => rw [h0] at he; simp at he
        | some e0 =>
          rw [h0] at he
          simp only [Option.map_some', Option.some.injEq] at he
          subst he
          exact ⟨fun _ => hne, fun _ => hidden_mem_addClass e0⟩
      · intro id hid e he
        have hnot : id ∉ authButtons := by
          simp only [loggedInElements, List.mem_cons, List.mem_singleton, List.not_mem_nil,
            or_false] at hid
          rcases hid with h | h <;> subst h <;> decide
        rw [getElementById_authUI, if_neg hnot, if_pos hid] at he
        cases h0 : getElementById id s.document with
        | none => rw [h0] at he; simp at he
        | some e0 =>
          rw [h0] at he
          simp only [Option.map_some', Option.some.injEq] at he
          subst he
          exact ⟨fun h => absurd h (hidden_not_mem_removeClass e0), fun h => absurd h hne⟩
      · intro id
        rw [getElementById_authUI]
        split_ifs <;> simp
    · have heq : sessionUser session = JsVal.null := by
        by_contra hne
        exact ht (htr.mpr hne)
      rw [if_neg ht] at hd
      rw [getCurrentUser, hu, hd]
      refine ⟨?_, ?_, ?_⟩
      · intro id hid e he
        rw [getElementById_authUI, if_pos hid] at he
        cases h0 : getElementById id s.document with
        | none => rw [h0] at he; simp at he
        | some e0 =>
          rw [h0] at he
          simp only [Option.map_some', Option.some.injEq] at he
          subst he
          exact ⟨fun h => absurd h (hidden_not_mem_removeClass e0), fun h => absurd heq h⟩
      · intro id hid e he
        have hnot : id ∉ authButtons := by
          simp only [loggedInElements, List.mem_cons, List.mem_singleton, List.not_mem_nil,
            or_false] at hid
          rcases hid with h | h <;> subst h <;> decide
        rw [getElementById_authUI, if_neg hnot, if_pos hid] at he
        cases h0 : getElementById id s.document with
        | none => rw [h0] at he; simp at he
        | some e0 =>
          rw [h0] at he
          simp only [Option.map_some', Option.some.injEq] at he
          subst he
          exact ⟨fun _ => heq, fun _ => hidden_mem_addClass e0⟩
      · intro id
        rw [getElementById_authUI]
        split_ifs <;> simp

/-- Witness for C18: a user signs in on a page that has `loginBtn` and `logoutBtn` and none of
the other four elements; afterwards `loginBtn` is hidden and `logoutBtn` is not. -/
theorem auth_ui_after_event_witness :
    (onProviderEvent "SIGNED_IN" (.obj (.cons "user" (.obj (.cons "id" (.str "u1") .nil)) .nil))
      { currentUser := .null, authStateListeners := [.mk 1 .done],
        document := [("loginBtn", ⟨[], "Login"⟩), ("logoutBtn", ⟨["hidden"], "Logout"⟩)],
        log := [] }).1.document =
      [("loginBtn", ⟨["hidden"], "Login"⟩), ("logoutBtn", ⟨[], "Logout"⟩)] ∧
    ("hidden" ∈ (⟨["hidden"], "Login"⟩ : Element).classList ↔
      getCurrentUser (onProviderEvent "SIGNED_IN"
        (.obj (.cons "user" (.obj (.cons "id" (.str "u1") .nil)) .nil))
        { currentUser := .null, authStateListeners := [.mk 1 .done],
          document := [("loginBtn", ⟨[], "Login"⟩), ("logoutBtn", ⟨["hidden"], "Logout"⟩)],
          log := [] }).1 ≠ .null) :=
  ⟨by decide,
   ((auth_ui_after_event "SIGNED_IN"
      (.obj (.cons "user" (.obj (.cons "id" (.str "u1") .nil)) .nil))
      { currentUser := .null, authStateListeners := [.mk 1 .done],
        document := [("loginBtn", ⟨[], "Login"⟩), ("logoutBtn", ⟨["hidden"], "Logout"⟩)],
        log := [] }).2 (by decide)).1 "loginBtn" (by decide) ⟨["hidden"], "Login"⟩ (by decide)⟩

/-! ## The password-strength indicator -/

theorem requirementHtml_valid_iff (b : Bool) :
    (requirementHtml b "8+ characters" = requirementHtml true "8+ characters" ↔ b = true) ∧
    (requirementHtml b "Uppercase" = requirementHtml true "Uppercase" ↔ b = true) ∧
    (requirementHtml b "Number" = requirementHtml true "Number" ↔ b = true) := by
  cases b <;> decide

/-- C19: on a signup page that has the three indicator elements, for every string `password`,
`updatePasswordStrength` gives all three requirements (`8+ characters`, `Uppercase`, `Number`)
the markup of a satisfied requirement (the `check` icon in green) if and only if
`isPasswordStrong(password)` is `true`. -/
theorem strength_indicator_agrees (password : String) (p : StrengthIndicator)
    (hlength : p.length.isSome = true) (huppercase : p.uppercase.isSome = true)
    (hnumber : p.number.isSome = true) :
    ((updatePasswordStrength password p).length =
        some (requirementHtml true "8+ characters") ∧
      (updatePasswordStrength password p).uppercase =
        some (requirementHtml true "Uppercase") ∧
      (updatePasswordStrength password p).number =
        some (requirementHtml true "Number")) ↔
    isPasswordStrong password = true := by
  obtain ⟨l, u, n⟩ := p
  cases l with
  | none => simp at hlength
  | some l =>
    cases u with
    | none => simp at huppercase
    | some u =>
      cases n with
      | none => simp at hnumber
      | some n =>
        simp only [updatePasswordStrength, Option.some.injEq]
        rw [(requirementHtml_valid_iff _).1, (requirementHtml_valid_iff _).2.1,
          (requirementHtml_valid_iff _).2.2, isPasswordStrong, Bool.and_eq_true,
          Bool.and_eq_true, and_assoc]

/-- Witness for C19: for `Passw0rd` all three requirements are marked as satisfied. -/
theorem strength_indicator_agrees_witness :
    (updatePasswordStrength "Passw0rd" ⟨some "", some "", some ""⟩).length =
        some (requirementHtml true "8+ characters") ∧
      (updatePasswordStrength "Passw0rd" ⟨some "", some "", some ""⟩).uppercase =
        some (requirementHtml true "Uppercase") ∧
      (updatePasswordStrength "Passw0rd" ⟨some "", some "", some ""⟩).number =
        some (requirementHtml true "Number") :=
  (strength_indicator_agrees "Passw0rd" ⟨some "", some "", some ""⟩ rfl rfl rfl).mpr (by decide)

/-! ## Unsubscribing by identity -/

/-- C20: the unsubscribe handle removes by callback identity. Let `h` be the handle that
`onAuthStateChange(cb)` returned. Called in any state, `h` leaves no registration of `cb` in
the list, however many registrations of `cb` there were and whichever subscribe call made them,
and every listener with another identity is registered as often as before, in the old order. -/
theorem unsubscribe_by_identity (cb : Listener) (s0 t : State) (h : Handle)
    (hsub : (onAuthStateChange 0 cb s0).2 = .returned h) :
    (∀ l ∈ (h.call t).authStateListeners, l.id ≠ cb.id) ∧
    (h.call t).authStateListeners.filter (fun l => l.id == cb.id) = [] ∧
    (∀ l : Listener, l.id ≠ cb.id →
      (h.call t).authStateListeners.count l = t.authStateListeners.count l) ∧
    (h.call t).authStateListeners.filter (fun l => l.id != cb.id) =
      t.authStateListeners.filter (fun l => l.id != cb.id) := by
  have hh := handle_of_returned 0 cb s0 h hsub
  subst hh
  have hmem : ∀ l ∈ (Handle.call ⟨cb.id⟩ t).authStateListeners, l.id ≠ cb.id := by
    intro l hl
    simp only [Handle.call, List.mem_filter] at hl
    simpa using hl.2
  refine ⟨hmem, ?_, ?_, ?_⟩
  · rw [List.filter_eq_nil_iff]
    intro l hl
    simpa using hmem l hl
  · intro l hl
    simp only [Handle.call]
    exact List.count_filter (by simpa using hl)
  · simp [Handle.call, List.filter_filter]

/-- Witness for C20: `cb` (identity 1) is subscribed, then `other`, then `cb` again; the handle
from the first subscription removes both registrations of `cb` and leaves `other`. -/
theorem unsubscribe_by_identity_witness :
    (Handle.call ⟨1⟩
      (run [Input.subscribe (.mk 1 .done), Input.subscribe (.mk 2 .done),
        Input.subscribe (.mk 1 .done)] (State.init []))).authStateListeners =
      [Listener.mk 2 .done] ∧
    ∀ l ∈ (Handle.call ⟨1⟩
      (run [Input.subscribe (.mk 1 .done), Input.subscribe (.mk 2 .done),
        Input.subscribe (.mk 1 .done)] (State.init []))).authStateListeners,
      l.id ≠ (Listener.mk 1 .done).id :=
  ⟨by decide,
   (unsubscribe_by_identity (.mk 1 .done) (State.init [])
    (run [Input.subscribe (.mk 1 .done), Input.subscribe (.mk 2 .done),
      Input.subscribe (.mk 1 .done)] (State.init [])) ⟨1⟩ (by decide)).1⟩

/-! ## The owner of a submitted row -/

theorem lookup_set_same (key : String) (v : JsVal) : ∀ (f : Fields),
    (f.set key v).lookup key = v
  | .nil => by simp [Fields.set, Fields.lookup]
  | .cons k x rest => by
    have ih := lookup_set_same key v rest
    by_cases hk : k = key
    · simp [Fields.set, Fields.lookup, hk]
    · simp [Fields.set, Fields.lookup, hk, ih]

theorem lookup_set_other (key other : String) (v : JsVal) (h : other ≠ key) : ∀ (f : Fields),
    (f.set key v).lookup other = f.lookup other
  | .nil => by
    have h' : ¬ key = other := fun e => h e.symm
    simp only [Fields.set, Fields.lookup, if_neg h']
  | .cons k x rest => by
    have ih := lookup_set_other key other v h rest
    by_cases hk : k = key
    · have hko : ¬ k = other := fun e => h (e.symm.trans hk)
      simp only [Fields.set, if_pos hk, Fields.lookup, if_neg hko]
    · by_cases hko : k = other
      · simp only [Fields.set, if_neg hk, Fields.lookup, if_pos hko]
      · simp only [Fields.set, if_neg hk, Fields.lookup, if_neg hko, ih]

theorem set_set (key : String) (a b : JsVal) : ∀ (f : Fields),
    (f.set key a).set key b = f.set key b
  | .nil => by simp [Fields.set]
  | .cons k x rest => by
    have ih := set_set key a b rest
    by_cases hk : k = key
    · simp [Fields.set, hk]
    · simp [Fields.set, hk, ih]

theorem awaitQuery_requests (label : String) (r : Request) (onData : JsVal → JsVal)
    (failData : JsVal) (reply : ProviderReply) (s : State) :
    requestsOf (newEvents s (awaitQuery label r onData failData reply s).1) = [r] := by
  have hlog : ∃ tail, (awaitQuery label r onData failData reply s).1.log =
      s.log ++ Ev.request r :: tail ∧ ∀ e ∈ tail, ∀ q, e ≠ Ev.request q := by
    unfold awaitQuery
    cases reply with
    | resolved value =>
      by_cases h1 : value.nullish = true
      · exact ⟨[.consoleError label (destructureError "data" value)],
        by simp [h1, State.emit], by simp⟩
      · exact ⟨[], by simp [h1, State.emit], by simp⟩
    | rejected error => exact ⟨[.consoleError label error], by simp [State.emit], by simp⟩
  obtain ⟨tail, hl, htail⟩ := hlog
  rw [newEvents_of_append hl]
  have h1 := requestsOf_append [Ev.request r] tail
  rw [requestsOf_eq_nil htail] at h1
  simpa [requestsOf] using h1

theorem spreadWith_user_id (payload v : JsVal) :
    (payload.spreadWith "user_id" v).prop "user_id" = v := by
  simp [JsVal.spreadWith, JsVal.prop, lookup_set_same]

theorem spreadWith_twice (payload a v : JsVal) :
    (payload.spreadWith "user_id" a).spreadWith "user_id" v = payload.spreadWith "user_id" v := by
  simp [JsVal.spreadWith, JsVal.ownFields, set_set]

theorem spreadWith_other (p1 p2 v : JsVal)
    (h : ∀ key, key ≠ "user_id" → p1.ownFields.lookup key = p2.ownFields.lookup key)
    (key : String) :
    (p1.spreadWith "user_id" v).prop key = (p2.spreadWith "user_id" v).prop key := by
  by_cases hk : key = "user_id"
  · subst hk
    rw [spreadWith_user_id, spreadWith_user_id]
  · simp only [JsVal.spreadWith, JsVal.prop]
    rw [lookup_set_other "user_id" key v hk, lookup_set_other "user_id" key v hk]
    exact h key hk

/-- C23: the caller cannot choose the owner of a submitted row. For every state with a signed-in
user, every payload and every reply of the backend, `createCommunityPost`, `createEmergencyAlert`
and `addEmergencyContact` submit exactly one request, the insert of the row
`{...payload, user_id: currentUser.id}`, and `addComment` the insert of
`{post_id, user_id: currentUser.id, content}`; in each row `user_id` reads as the current
user's `id`, also when the payload has a `user_id` of its own. The payload may be any value: an
object, a string (whose indices the spread copies), `null`, `undefined`, a boolean or a number.
Two payloads that differ only in `user_id` (their own enumerable properties other than `user_id`
read the same) give rows that agree on every property, and a payload and the same payload with
`user_id` set to anything give the same row. -/
theorem row_owner_is_current_user (s : State) (hsigned : (getCurrentUser s).truthy = true)
    (payload postId content : JsVal) (reply : ProviderReply) :
    (requestsOf (newEvents s (createCommunityPost payload reply s).1) =
        [{ table := "community_posts", verb := "insert",
           payload := payload.spreadWith "user_id" ((getCurrentUser s).prop "id"),
           eqColumn := "", eqValue := .undefined }] ∧
      requestsOf (newEvents s (createEmergencyAlert payload reply s).1) =
        [{ table := "emergency_alerts", verb := "insert",
           payload := payload.spreadWith "user_id" ((getCurrentUser s).prop "id"),
           eqColumn := "", eqValue := .undefined }] ∧
      requestsOf (newEvents s (addEmergencyContact payload reply s).1) =
        [{ table := "emergency_contacts", verb := "insert",
           payload := payload.spreadWith "user_id" ((getCurrentUser s).prop "id"),
           eqColumn := "", eqValue := .undefined }] ∧
      requestsOf (newEvents s (addComment postId content reply s).1) =
        [{ table := "post_comments", verb := "insert",
           payload := .obj (.cons "post_id" postId
             (.cons "user_id" ((getCurrentUser s).prop "id") (.cons "content" content .nil))),
           eqColumn := "", eqValue := .undefined }]) ∧
    ((∀ r ∈ requestsOf (newEvents s (createCommunityPost payload reply s).1),
        r.payload.prop "user_id" = (getCurrentUser s).prop "id") ∧
      (∀ r ∈ requestsOf (newEvents s (createEmergencyAlert payload reply s).1),
        r.payload.prop "user_id" = (getCurrentUser s).prop "id") ∧
      (∀ r ∈ requestsOf (newEvents s (addEmergencyContact payload reply s).1),
        r.payload.prop "user_id" = (getCurrentUser s).prop "id") ∧
      (∀ r ∈ requestsOf (newEvents s (addComment postId content reply s).1),
        r.payload.prop "user_id" = (getCurrentUser s).prop "id")) ∧
    (∀ a : JsVal,
      requestsOf (newEvents s
          (createCommunityPost (payload.spreadWith "user_id" a) reply s).1) =
        requestsOf (newEvents s (createCommunityPost payload reply s).1) ∧
      requestsOf (newEvents s
          (createEmergencyAlert (payload.spreadWith "user_id" a) reply s).1) =
        requestsOf (newEvents s (createEmergencyAlert payload reply s).1) ∧
      requestsOf (newEvents s
          (addEmergencyContact (payload.spreadWith "user_id" a) reply s).1) =
        requestsOf (newEvents s (addEmergencyContact payload reply s).1)) ∧
    (∀ other : JsVal,
      (∀ key, key ≠ "user_id" → payload.ownFields.lookup key = other.ownFields.lookup key) →
      ∀ key, (payload.spreadWith "user_id" ((getCurrentUser s).prop "id")).prop key =
        (other.spreadWith "user_id" ((getCurrentUser s).prop "id")).prop key) := by
  have ht : s.currentUser.truthy = true := hsigned
  have hpost : ∀ p : JsVal, requestsOf (newEvents s (createCommunityPost p reply s).1) =
      [{ table := "community_posts", verb := "insert",
         payload := p.spreadWith "user_id" ((getCurrentUser s).prop "id"),
         eqColumn := "", eqValue := .undefined }] := by
    intro p
    simp only [createCommunityPost, ht, if_true]
    exact awaitQuery_requests _ _ _ _ reply s
  have halert : ∀ p : JsVal, requestsOf (newEvents s (createEmergencyAlert p reply s).1) =
      [{ table := "emergency_alerts", verb := "insert",
         payload := p.spreadWith "user_id" ((getCurrentUser s).prop "id"),
         eqColumn := "", eqValue := .undefined }] := by
    intro p
    simp only [createEmergencyAlert, ht, if_true]
    exact awaitQuery_requests _ _ _ _ reply s
  have hcontact : ∀ p : JsVal, requestsOf (newEvents s (addEmergencyContact p reply s).1) =
      [{ table := "emergency_contacts", verb := "insert",
         payload := p.spreadWith "user_id" ((getCurrentUser s).prop "id"),
         eqColumn := "", eqValue := .undefined }] := by
    intro p
    simp only [addEmergencyContact, ht, if_true]
    exact awaitQuery_requests _ _ _ _ reply s
  have hcomment : requestsOf (newEvents s (addComment postId content reply s).1) =
      [{ table := "post_comments", verb := "insert",
         payload := .obj (.cons "post_id" postId
           (.cons "user_id" ((getCurrentUser s).prop "id") (.cons "content" content .nil))),
         eqColumn := "", eqValue := .undefined }] := by
    simp only [addComment, ht, if_true]
    exact awaitQuery_requests _ _ _ _ reply s
  refine ⟨⟨hpost payload, halert payload, hcontact payload, hcomment⟩, ⟨?_, ?_, ?_, ?_⟩, ?_, ?_⟩
  · intro r hr
    rw [hpost payload, List.mem_singleton] at hr
    subst hr
    exact spreadWith_user_id _ _
  · intro r hr
    rw [halert payload, List.mem_singleton] at hr
    subst hr
    exact spreadWith_user_id _ _
  · intro r hr
    rw [hcontact payload, List.mem_singleton] at hr
    subst hr
    exact spreadWith_user_id _ _
  · intro r hr
    rw [hcomment, List.mem_singleton] at hr
    subst hr
    simp [JsVal.prop, Fields.lookup]
  · intro a
    refine ⟨?_, ?_, ?_⟩
    · rw [hpost, hpost, spreadWith_twice]
    · rw [halert, halert, spreadWith_twice]
    · rw [hcontact, hcontact, spreadWith_twice]
  · intro other hother key
    exact spreadWith_other payload other _ hother key

/-- Example for C23: a payload that is the string `ab`. The spread copies its two index
properties, and the row that is inserted is `{0: 'a', 1: 'b', user_id: 'u1'}`. -/
theorem row_owner_string_example :
    requestsOf (newEvents
      { currentUser := .obj (.cons "id" (.str "u1") .nil), authStateListeners := [],
        document := [], log := [] }
      (createCommunityPost (.str "ab") (.rejected .null)
        { currentUser := .obj (.cons "id" (.str "u1") .nil), authStateListeners := [],
          document := [], log := [] }).1) =
      [{ table := "community_posts", verb := "insert",
         payload := .obj (.cons "0" (.str "a") (.cons "1" (.str "b")
           (.cons "user_id" (.str "u1") .nil))),
         eqColumn := "", eqValue := .undefined }] := by
  decide

/-- Witness for C23: user `u1` posts a payload that names `victim` as `user_id`; the row that
is inserted belongs to `u1`. -/
theorem row_owner_is_current_user_witness :
    requestsOf (newEvents
      { currentUser := .obj (.cons "id" (.str "u1") .nil), authStateListeners := [],
        document := [], log := [] }
      (createCommunityPost
        (.obj (.cons "title" (.str "hi") (.cons "user_id" (.str "victim") .nil)))
        (.resolved (.obj (.cons "data" (.str "row") (.cons "error" .null .nil))))
        { currentUser := .obj (.cons "id" (.str "u1") .nil), authStateListeners := [],
          document := [], log := [] }).1) =
      [{ table := "community_posts", verb := "insert",
         payload := .obj (.cons "title" (.str "hi") (.cons "user_id" (.str "u1") .nil)),
         eqColumn := "", eqValue := .undefined }] :=
  (row_owner_is_current_user
    { currentUser := .obj (.cons "id" (.str "u1") .nil), authStateListeners := [],
      document := [], log := [] }
    (by decide) (.obj (.cons "title" (.str "hi") (.cons "user_id" (.str "victim") .nil)))
    .null .null
    (.resolved (.obj (.cons "data" (.str "row") (.cons "error" .null .nil))))).1.1

/-! ## A subscription whose callback throws -/

mutual
theorem onAuthStateChange_keeps (x : Listener) : ∀ (l : Listener) (d : Nat) (s : State),
    x ∈ s.authStateListeners → l.callsHandle x.id = false →
    x ∈ (onAuthStateChange d l s).1.authStateListeners
  | .mk id body, d, s, hx, hl => by
    rw [Listener.callsHandle] at hl
    rw [onAuthStateChange_fst]
    refine runBody_keeps x body (d + 1) id _ ?_ hl
    show x ∈ s.authStateListeners ++ [Listener.mk id body]
    exact List.mem_append_left _ hx
theorem runBody_keeps (x : Listener) : ∀ (b : Script) (d me : Nat) (s : State),
    x ∈ s.authStateListeners → b.callsHandle x.id = false →
    x ∈ (runBody d me b s).1.authStateListeners
  | .done, d, me, s, hx, _ => by rw [runBody]; exact hx
  | .raise, d, me, s, hx, _ => by rw [runBody]; exact hx
  | .read rest, d, me, s, hx, hb => by
    rw [Script.callsHandle] at hb
    rw [runBody]
    exact runBody_keeps x rest d me _ hx hb
  | .notify message type rest, d, me, s, hx, hb => by
    rw [Script.callsHandle] at hb
    rw [runBody]
    exact runBody_keeps x rest d me _ hx hb
  | .unsubscribe h rest, d, me, s, hx, hb => by
    rw [Script.callsHandle, Bool.or_eq_false_iff] at hb
    rw [runBody]
    refine runBody_keeps x rest d me _ ?_ hb.2
    simp only [Handle.call, List.mem_filter]
    refine ⟨hx, ?_⟩
    have hne : h ≠ x.id := by simpa using hb.1
    simpa using fun e => hne e.symm
  | .subscribe l rest, d, me, s, hx, hb => by
    rw [Script.callsHandle, Bool.or_eq_false_iff] at hb
    have h1 := onAuthStateChange_keeps x l d s hx hb.1
    rw [runBody]
    rcases hr : onAuthStateChange d l s with ⟨s1, c⟩
    rw [hr] at h1
    cases c with
    | returned v => exact runBody_keeps x rest d me s1 h1 hb.2
    | threw => exact h1
end

theorem onAuthStateChange_registers (l : Listener) (d : Nat) (s : State)
    (h : l.body.callsHandle l.id = false) :
    l ∈ (onAuthStateChange d l s).1.authStateListeners := by
  cases l with
  | mk id body =>
    rw [onAuthStateChange_fst]
    refine runBody_keeps (Listener.mk id body) body (d + 1) id _ ?_ h
    show Listener.mk id body ∈ s.authStateListeners ++ [Listener.mk id body]
    simp

/-- Counterexample to C22 as stated: `obs1`, which throws when it is called, is registered;
`onAuthStateChange(obs2)` fails because `obs2` throws in its initial call, and leaves `obs2`
registered after `obs1`. The next `SIGNED_IN` calls `obs1` only: its error ends the fan-out, so
`obs2`, though in the list, is not called for that event. -/
theorem subscribe_not_atomic_counterexample :
    onAuthStateChange 0 (.mk 2 .raise)
      { currentUser := .null, authStateListeners := [.mk 1 .raise], document := [], log := [] } =
      ({ currentUser := .null, authStateListeners := [.mk 1 .raise, .mk 2 .raise],
         document := [], log := [.invoke 0 2 .null "INITIAL_SESSION"] }, .threw) ∧
    newEvents
      { currentUser := .null, authStateListeners := [.mk 1 .raise, .mk 2 .raise],
        document := [], log := [.invoke 0 2 .null "INITIAL_SESSION"] }
      (onProviderEvent "SIGNED_IN" .null
        { currentUser := .null, authStateListeners := [.mk 1 .raise, .mk 2 .raise],
          document := [], log := [.invoke 0 2 .null "INITIAL_SESSION"] }).1 =
      [Ev.invoke 0 1 .null "SIGNED_IN"] ∧
    ¬ ∃ e ∈ newEvents
      { currentUser := .null, authStateListeners := [.mk 1 .raise, .mk 2 .raise],
        document := [], log := [.invoke 0 2 .null "INITIAL_SESSION"] }
      (onProviderEvent "SIGNED_IN" .null
        { currentUser := .null, authStateListeners := [.mk 1 .raise, .mk 2 .raise],
          document := [], log := [.invoke 0 2 .null "INITIAL_SESSION"] }).1,
      e.invoked = some 2 := by
  decide

/-- C22, amended: subscribing is not atomic on error. If the callback throws during its initial
`'INITIAL_SESSION'` call inside `onAuthStateChange(callback)`, the call has been made, the error
leaves `onAuthStateChange` and no unsubscribe handle is returned; the callback was pushed before
it was called, so (unless its own body calls an unsubscribe handle for it) it is in the list of
observers afterwards; and in every later state in which it is registered, a provider event calls
it, provided the fan-out gets to it (no observer registered before it throws). -/
theorem subscribe_not_atomic (d : Nat) (l : Listener) (s : State) (hthrow : l.throws = true) :
    (onAuthStateChange d l s).2 = .threw ∧
    (∀ h : Handle, (onAuthStateChange d l s).2 ≠ .returned h) ∧
    (∃ inner, (onAuthStateChange d l s).1.log =
      s.log ++ Ev.invoke d l.id (getCurrentUser s) "INITIAL_SESSION" :: inner) ∧
    (l.body.callsHandle l.id = false → l ∈ (onAuthStateChange d l s).1.authStateListeners) ∧
    (∀ (t : State) (event : String) (session : JsVal) (earlier later : List Listener),
      t.authStateListeners = earlier ++ l :: later → (∀ x ∈ earlier, x.throws = false) →
      fanOutCall (sessionUser session) event l ∈
        directCalls 0 (newEvents t (onProviderEvent event session t).1)) := by
  have hthrew := (onAuthStateChange_threw_iff l d s).mpr hthrow
  refine ⟨hthrew, ?_, ?_, onAuthStateChange_registers l d s, ?_⟩
  · intro h hret
    rw [hthrew] at hret
    simp at hret
  · obtain ⟨-, -, inner, hl, -⟩ := onAuthStateChange_frame l d s
    exact ⟨inner, hl⟩
  · intro t event session earlier later hlist hearlier
    rw [onProviderEvent_directCalls, hlist, reached_stops earlier later l hearlier hthrow]
    simp

/-- Witness for C22: a callback that reads the user and throws is subscribed to a module with
one observer; `onAuthStateChange` throws, the callback is registered after the old observer, and
the next `SIGNED_IN` calls both. -/
theorem subscribe_not_atomic_witness :
    onAuthStateChange 0 (.mk 2 (.read .raise))
      { currentUser := .null, authStateListeners := [.mk 1 .done], document := [], log := [] } =
      ({ currentUser := .null, authStateListeners := [.mk 1 .done, .mk 2 (.read .raise)],
         document := [],
         log := [.invoke 0 2 .null "INITIAL_SESSION", .sawUser 1 2 .null] }, .threw) ∧
    fanOutCall (sessionUser (.obj (.cons "user" (.str "u1") .nil))) "SIGNED_IN"
        (.mk 2 (.read .raise)) ∈
      directCalls 0 (newEvents
        (onAuthStateChange 0 (.mk 2 (.read .raise))
          { currentUser := .null, authStateListeners := [.mk 1 .done], document := [],
            log := [] }).1
        (onProviderEvent "SIGNED_IN" (.obj (.cons "user" (.str "u1") .nil))
          (onAuthStateChange 0 (.mk 2 (.read .raise))
            { currentUser := .null, authStateListeners := [.mk 1 .done], document := [],
              log := [] }).1).1) :=
  ⟨by decide,
   (subscribe_not_atomic 0 (.mk 2 (.read .raise))
      { currentUser := .null, authStateListeners := [.mk 1 .done], document := [], log := [] }
      (by decide)).2.2.2.2 _ "SIGNED_IN" (.obj (.cons "user" (.str "u1") .nil))
      [.mk 1 .done] [] (by decide) (by decide)⟩

/-! ## Subscribing and unsubscribing during a fan-out -/

theorem absent_handle {n : Nat} {s : State} (ha : Absent n s) (h : Handle) :
    Absent n (h.call s) :=
  fun x hx => ha x (List.mem_of_mem_filter hx)

theorem absent_after_handle (n : Nat) (s : State) : Absent n (Handle.call ⟨n⟩ s) := by
  intro x hx
  simp only [Handle.call, List.mem_filter] at hx
  simpa using hx.2

mutual
theorem onAuthStateChange_absent (n : Nat) : ∀ (l : Listener) (d : Nat) (s : State),
    Absent n s → l.subscribesId n = false → Absent n (onAuthStateChange d l s).1
  | .mk id body, d, s, ha, hl => by
    rw [Listener.subscribesId, Bool.or_eq_false_iff] at hl
    have hid : id ≠ n := by simpa using hl.1
    rw [onAuthStateChange_fst]
    refine runBody_absent n body (d + 1) id _ ?_ hl.2
    intro x hx
    have hx' : x ∈ s.authStateListeners ++ [Listener.mk id body] := hx
    rcases List.mem_append.mp hx' with h | h
    · exact ha x h
    · rw [List.mem_singleton] at h
      subst h
      exact hid
theorem runBody_absent (n : Nat) : ∀ (b : Script) (d me : Nat) (s : State),
    Absent n s → b.subscribesId n = false → Absent n (runBody d me b s).1
  | .done, d, me, s, ha, _ => by rw [runBody]; exact ha
  | .raise, d, me, s, ha, _ => by rw [runBody]; exact ha
  | .read rest, d, me, s, ha, hb => by
    rw [Script.subscribesId] at hb
    rw [runBody]
    exact runBody_absent n rest d me _ ha hb
  | .notify message type rest, d, me, s, ha, hb => by
    rw [Script.subscribesId] at hb
    rw [runBody]
    exact runBody_absent n rest d me _ ha hb
  | .unsubscribe h rest, d, me, s, ha, hb => by
    rw [Script.subscribesId] at hb
    rw [runBody]
    exact runBody_absent n rest d me _ (absent_handle ha ⟨h⟩) hb
  | .subscribe l rest, d, me, s, ha, hb => by
    rw [Script.subscribesId, Bool.or_eq_false_iff] at hb
    have h1 := onAuthStateChange_absent n l d s ha hb.1
    rw [runBody]
    rcases hr : onAuthStateChange d l s with ⟨s1, c⟩
    rw [hr] at h1
    cases c with
    | returned v => exact runBody_absent n rest d me s1 h1 hb.2
    | threw => exact h1
end

theorem runBody_unsubscribes (n : Nat) : ∀ (b : Script) (d me : Nat) (s : State),
    b.unsubscribes n = true → Absent n (runBody d me b s).1
  | .done, d, me, s, hb => by simp [Script.unsubscribes] at hb
  | .raise, d, me, s, hb => by simp [Script.unsubscribes] at hb
  | .read rest, d, me, s, hb => by
    rw [Script.unsubscribes] at hb
    rw [runBody]
    exact runBody_unsubscribes n rest d me _ hb
  | .notify message type rest, d, me, s, hb => by
    rw [Script.unsubscribes] at hb
    rw [runBody]
    exact runBody_unsubscribes n rest d me _ hb
  | .unsubscribe h rest, d, me, s, hb => by
    rw [Script.unsubscribes, Bool.or_eq_true, Bool.and_eq_true] at hb
    rw [runBody]
    rcases hb with ⟨hh, hfree⟩ | hrest
    · have hhn : h = n := by simpa using hh
      subst hhn
      exact runBody_absent h rest d me _ (absent_after_handle h s) (by simpa using hfree)
    · exact runBody_unsubscribes n rest d me _ hrest
  | .subscribe l rest, d, me, s, hb => by
    rw [Script.unsubscribes, Bool.and_eq_true] at hb
    have hnot : (onAuthStateChange d l s).2 ≠ .threw := by
      intro h
      have := (onAuthStateChange_threw_iff l d s).mp h
      rw [this] at hb
      simp at hb
    rw [runBody]
    rcases hr : onAuthStateChange d l s with ⟨s1, c⟩
    rw [hr] at hnot
    cases c with
    | returned v => exact runBody_unsubscribes n rest d me s1 hb.2
    | threw => exact absurd rfl hnot

theorem forEachListener_absent (n : Nat) (event : String) : ∀ (ls : List Listener) (s : State),
    Absent n s → (∀ l ∈ ls, l.body.subscribesId n = false) →
    Absent n (forEachListener event ls s).1
  | [], s, ha, _ => by rw [forEachListener]; exact ha
  | l :: rest, s, ha, hls => by
    have h1 : Absent n (callListener 0 l s.currentUser event s).1 :=
      runBody_absent n l.body 1 l.id _ ha (hls l (List.mem_cons_self l rest))
    rw [forEachListener]
    rcases hr : callListener 0 l s.currentUser event s with ⟨s1, c⟩
    rw [hr] at h1
    cases c with
    | returned v =>
      exact forEachListener_absent n event rest s1 h1
        (fun x hx => hls x (List.mem_cons_of_mem l hx))
    | threw => exact h1

theorem forEachListener_unsubscribed (n : Nat) (event : String) (a : Listener)
    (later : List Listener) (ha : a.body.unsubscribes n = true)
    (hlater : ∀ l ∈ later, l.body.subscribesId n = false) :
    ∀ (earlier : List Listener) (s : State), (∀ l ∈ earlier, l.throws = false) →
    Absent n (forEachListener event (earlier ++ a :: later) s).1
  | [], s, _ => by
    have h1 : Absent n (callListener 0 a s.currentUser event s).1 :=
      runBody_unsubscribes n a.body 1 a.id _ ha
    rw [List.nil_append, forEachListener]
    rcases hr : callListener 0 a s.currentUser event s with ⟨s1, c⟩
    rw [hr] at h1
    cases c with
    | returned v => exact forEachListener_absent n event later s1 h1 hlater
    | threw => exact h1
  | l :: rest, s, hearlier => by
    have hl : l.throws = false := hearlier l (List.mem_cons_self l rest)
    have hnot : (callListener 0 l s.currentUser event s).2 ≠ .threw := by
      intro h
      have := (callListener_threw_iff 0 l s.currentUser event s).mp h
      rw [hl] at this
      simp at this
    rw [List.cons_append, forEachListener]
    rcases hr : callListener 0 l s.currentUser event s with ⟨s1, c⟩
    rw [hr] at hnot
    cases c with
    | returned v =>
      exact forEachListener_unsubscribed n event a later ha hlater rest s1
        (fun x hx => hearlier x (List.mem_cons_of_mem l hx))
    | threw => exact absurd rfl hnot

theorem onProviderEvent_listeners (event : String) (session : JsVal) (s : State) :
    (onProviderEvent event session s).1.authStateListeners =
      (forEachListener event s.authStateListeners (afterWrite session s)).1.authStateListeners := by
  cases hcomp : (onProviderEvent event session s).2 with
  | threw => rw [onProviderEvent_threw_state event session s hcomp]
  | returned v =>
    rw [onProviderEvent_returned_state event session s hcomp]
    exact (updateAuthUI_frame _).2.1

theorem reached_mem_of_no_throw : ∀ (front later : List Listener) (b : Listener),
    (∀ l ∈ front, l.throws = false) → b ∈ reached (front ++ b :: later)
  | [], later, b, _ => by
    by_cases hb : b.throws = true
    · simp [reached, hb]
    · simp [reached, hb]
  | l :: rest, later, b, h => by
    have h1 : l.throws = false := h l (List.mem_cons_self l rest)
    have ih := reached_mem_of_no_throw rest later b (fun x hx => h x (List.mem_cons_of_mem l hx))
    simp [reached, h1, ih]

theorem reached_subset : ∀ (ls : List Listener), ∀ x ∈ reached ls, x ∈ ls
  | [], x, hx => by simp [reached] at hx
  | a :: rest, x, hx => by
    by_cases ha : a.throws = true
    · simp [reached, ha] at hx
      simp [hx]
    · simp [reached, ha] at hx
      rcases hx with h | h
      · simp [h]
      · exact List.mem_cons_of_mem a (reached_subset rest x h)

/-- Counterexample to C21 as stated: `obs1` and `obs2` are registered when `SIGNED_IN` arrives;
`obs1` subscribes, during the fan-out, a callback that throws in its initial call. The error
leaves `onAuthStateChange` and `obs1`, the fan-out ends, and `obs2` is not notified. -/
theorem fanOut_snapshot_counterexample :
    directCalls 0 (newEvents
      { currentUser := .null,
        authStateListeners := [.mk 1 (.subscribe (.mk 3 .raise) .done), .mk 2 .done],
        document := [], log := [] }
      (onProviderEvent "SIGNED_IN" .null
        { currentUser := .null,
          authStateListeners := [.mk 1 (.subscribe (.mk 3 .raise) .done), .mk 2 .done],
          document := [], log := [] }).1) = [Ev.invoke 0 1 .null "SIGNED_IN"] ∧
    directCalls 0 (newEvents
      { currentUser := .null,
        authStateListeners := [.mk 1 (.subscribe (.mk 3 .raise) .done), .mk 2 .done],
        document := [], log := [] }
      (onProviderEvent "SIGNED_IN" .null
        { currentUser := .null,
          authStateListeners := [.mk 1 (.subscribe (.mk 3 .raise) .done), .mk 2 .done],
          document := [], log := [] }).1) ≠
      [Listener.mk 1 (.subscribe (.mk 3 .raise) .done), Listener.mk 2 .done].map
        (fanOutCall .null "SIGNED_IN") := by
  decide

/-- C21, amended: the observers notified for a provider event are taken from the list as it was
when the event arrived, whatever subscribe and unsubscribe calls observers make during the
fan-out: they are the observers registered then, in order, from the first up to and including
the first one that throws (an observer also throws when a subscription it makes throws), and all
of them when the callback completes normally. An observer whose unsubscribe handle is called by
an earlier observer during the fan-out is still called for the current event when the fan-out
gets to it, and, if nothing subscribes it again, it is not registered afterwards and no later
event calls it. Every callback call at depth one or more is the `'INITIAL_SESSION'` call of a
subscription made inside a body, so an observer that was not registered when the event arrived
receives only such calls, not the current event. -/
theorem fanOut_snapshot (event : String) (session : JsVal) (s : State) :
    directCalls 0 (newEvents s (onProviderEvent event session s).1) =
      (reached s.authStateListeners).map (fanOutCall (sessionUser session) event) ∧
    ((onProviderEvent event session s).2 = .returned () →
      directCalls 0 (newEvents s (onProviderEvent event session s).1) =
        s.authStateListeners.map (fanOutCall (sessionUser session) event)) ∧
    (∀ (earlier mid later : List Listener) (a b : Listener),
      s.authStateListeners = earlier ++ a :: (mid ++ b :: later) →
      (∀ l ∈ earlier ++ a :: mid, l.throws = false) → a.body.unsubscribes b.id = true →
      fanOutCall (sessionUser session) event b ∈
        directCalls 0 (newEvents s (onProviderEvent event session s).1) ∧
      ((∀ l ∈ mid ++ b :: later, l.body.subscribesId b.id = false) →
        Absent b.id (onProviderEvent event session s).1 ∧
        ∀ (event2 : String) (session2 : JsVal),
          ∀ e ∈ directCalls 0 (newEvents (onProviderEvent event session s).1
            (onProviderEvent event2 session2 (onProviderEvent event session s).1).1),
          e.invoked ≠ some b.id)) ∧
    (∀ n, Absent n s → ∀ e ∈ newEvents s (onProviderEvent event session s).1,
      e.invoked = some n →
      ∃ d, 0 < d ∧ e = Ev.invoke d n (sessionUser session) "INITIAL_SESSION") := by
  have hcalls := onProviderEvent_directCalls event session s
  refine ⟨hcalls, fun hret => ?_, ?_, ?_⟩
  · rw [hcalls, reached_of_no_throw]
    intro l hl
    cases hthrow : l.throws with
    | false => rfl
    | true =>
      have := (onProviderEvent_threw_iff event session s).mpr ⟨l, hl, hthrow⟩
      rw [hret] at this
      exact absurd this (by simp)
  · intro earlier mid later a b hlist hfront ha
    refine ⟨?_, fun hlater => ?_⟩
    · rw [hcalls, hlist]
      have hassoc : earlier ++ a :: (mid ++ b :: later) = (earlier ++ a :: mid) ++ b :: later := by
        simp
      rw [hassoc]
      exact List.mem_map_of_mem _ (reached_mem_of_no_throw _ later b hfront)
    · have hearlier : ∀ l ∈ earlier, l.throws = false :=
        fun l hl => hfront l (List.mem_append_left _ hl)
      have habs : Absent b.id (onProviderEvent event session s).1 := by
        intro x hx
        rw [onProviderEvent_listeners, hlist] at hx
        exact forEachListener_unsubscribed b.id event a (mid ++ b :: later) ha hlater earlier
          (afterWrite session s) hearlier x hx
      refine ⟨habs, ?_⟩
      intro event2 session2 e he
      rw [onProviderEvent_directCalls] at he
      obtain ⟨l, hl, rfl⟩ := List.mem_map.mp he
      have hne := habs l (reached_subset _ l hl)
      simpa [fanOutCall, Ev.invoked] using hne
  · intro n habsent e he hinv
    obtain ⟨-, ext, ui, hlog, hext, -, hui, -⟩ := onProviderEvent_spec event session s
    have hnew := newEvents_of_append hlog
    cases e with
    | invoke d id u ev =>
      simp only [Ev.invoked, Option.some.injEq] at hinv
      subst hinv
      by_cases hd : d = 0
      · subst hd
        exfalso
        have hmem : Ev.invoke 0 id u ev ∈
            directCalls 0 (newEvents s (onProviderEvent event session s).1) := by
          simp only [directCalls, List.mem_filter]
          exact ⟨he, by simp [Ev.callDepth]⟩
        rw [hcalls] at hmem
        obtain ⟨l, hl, heq⟩ := List.mem_map.mp hmem
        have hid : l.id = id := by
          simp only [fanOutCall, Ev.invoke.injEq] at heq
          exact heq.2.1
        exact habsent l (reached_subset _ l hl) hid
      · rw [hnew] at he
        rcases List.mem_append.mp he with h | h
        · rcases hext _ h with ⟨id2, heq⟩ | hbody
          · simp only [Ev.invoke.injEq] at heq
            exact absurd heq.1 hd
          · simp only [BodyOnly] at hbody
            refine ⟨d, by omega, ?_⟩
            rw [hbody.2.1, hbody.2.2]
        · obtain ⟨r, hr⟩ := hui _ h
          simp at hr
    | sawUser d id v => simp [Ev.invoked] at hinv
    | notification m t => simp [Ev.invoked] at hinv
    | request r => simp [Ev.invoked] at hinv
    | providerCall op args => simp [Ev.invoked] at hinv
    | consoleError l x => simp [Ev.invoked] at hinv
    | ui a x => simp [Ev.invoked] at hinv

/-- Witness for C21, amended: `obs1` calls the unsubscribe handle of `obs2` and subscribes
`obs3` while it is notified of `SIGNED_IN`. `obs2` is still called for this event, `obs3`
receives only its `'INITIAL_SESSION'` call, and afterwards `obs1` and `obs3` are registered. -/
theorem fanOut_snapshot_witness :
    (onProviderEvent "SIGNED_IN" .null
      { currentUser := .null,
        authStateListeners :=
          [.mk 1 (.unsubscribe 2 (.subscribe (.mk 3 .done) .done)), .mk 2 .done],
        document := [], log := [] }).1 =
      { currentUser := .null,
        authStateListeners :=
          [.mk 1 (.unsubscribe 2 (.subscribe (.mk 3 .done) .done)), .mk 3 .done],
        document := [],
        log := [.invoke 0 1 .null "SIGNED_IN", .invoke 1 3 .null "INITIAL_SESSION",
          .invoke 0 2 .null "SIGNED_IN"] } ∧
    fanOutCall (sessionUser .null) "SIGNED_IN" (.mk 2 .done) ∈
      directCalls 0 (newEvents
        { currentUser := .null,
          authStateListeners :=
            [.mk 1 (.unsubscribe 2 (.subscribe (.mk 3 .done) .done)), .mk 2 .done],
          document := [], log := [] }
        (onProviderEvent "SIGNED_IN" .null
          { currentUser := .null,
            authStateListeners :=
              [.mk 1 (.unsubscribe 2 (.subscribe (.mk 3 .done) .done)), .mk 2 .done],
            document := [], log := [] }).1) :=
  ⟨by decide,
   ((fanOut_snapshot "SIGNED_IN" .null
      { currentUser := .null,
        authStateListeners :=
          [.mk 1 (.unsubscribe 2 (.subscribe (.mk 3 .done) .done)), .mk 2 .done],
        document := [], log := [] }).2.2.1 [] [] []
      (.mk 1 (.unsubscribe 2 (.subscribe (.mk 3 .done) .done))) (.mk 2 .done)
      rfl (by decide) (by decide)).1⟩

end Safevoice
